import Mathlib

/-!
# Indel error model (`src/c++/lib/calibration/Indelmodel.cpp`)

A shallow embedding of `Indel_model` and of its member functions, followed by
theorems about them.

Conventions of the embedding

* C++ `unsigned` is a natural number below `2 ^ 32`; the operations that can
  leave that range (`*`, `- 1`) are reduced modulo `2 ^ 32` where the source
  performs them.  `long` is 64 bits wide, so the difference of two `unsigned`
  values is computed exactly, and the assignment of its absolute value to the
  `int` variable `indel_size` is the usual two's-complement narrowing.
* C++ `double` is modelled by exact rationals: rounding, infinities and NaN are
  outside the model.  `std::pow (x, n)` with an `int` exponent is `x ^ n` with
  an integer exponent (a negative exponent takes the reciprocal).
* `std::min` and `std::max` are written out as the comparisons the standard
  library performs.
* `assert` is compiled out when `NDEBUG` is defined; the flag `ndebug` of
  `Deserialize` selects the build.
* The header `Indelmodel.hh` is not part of the sources at hand.  The member
  `model` is read and written as `model[unit][tract]`; it is embedded as a
  total function from the two indices to a pair, so a cell that was never
  written still holds some value, as a slot of memory does.  An index that is
  the result of `0 - 1` in `unsigned` arithmetic is `2 ^ 32 - 1`; the source then
  reads outside the table, which `calc_prop` itself does not show and
  `calc_prop_checked` does.
-/

namespace Indelmodel

/-! ## Machine arithmetic -/

/-- Number of values of the C++ type `unsigned`. -/
def UINT_RANGE : Nat := 4294967296

/-- Product of two `unsigned` values, as `a * b` computes it. -/
def umul (a b : Nat) : Nat := (a * b) % UINT_RANGE

/-- The `unsigned` value `a - 1`, as `a - 1` computes it (zero wraps around). -/
def upred (a : Nat) : Nat := (a + (UINT_RANGE - 1)) % UINT_RANGE

/-- Conversion of an `int` to `unsigned` (assignment of `asInt ()` to an
`unsigned` member). -/
def int_to_unsigned (z : Int) : Nat := (z % 4294967296).toNat

/-- Narrowing of a `long` to `int`. -/
def long_to_int (z : Int) : Int := (z + 2147483648) % 4294967296 - 2147483648

/-- The call `std::max (a, b)`, which is `(a < b) ? b : a`. -/
def std_max {α : Type} [LT α] [DecidableRel (fun (x y : α) => x < y)] (a b : α) : α :=
  if a < b then b else a

/-- The call `std::min (a, b)`, which is `(b < a) ? b : a`. -/
def std_min {α : Type} [LT α] [DecidableRel (fun (x y : α) => x < y)] (a b : α) : α :=
  if b < a then b else a

/-- The call `std::pow (x, n)` with `n` of type `int`. -/
def std_pow (x : ℚ) (n : Int) : ℚ := x ^ n

/-! ## Data -/

namespace INDEL

/-- Modelled from the spec: the enumeration `INDEL::index_t` is declared in a
header that is not under `src/`; the spec gives the report type as one of
`INSERT`, `DELETE`, `OTHER` (breakpoints and swaps). -/
inductive index_t where
  | INSERT
  | DELETE
  | OTHER
  deriving DecidableEq, Repr

end INDEL

/-- The fields of `starling_indel_report_info` that `Indelmodel.cpp` reads.
`it` is the indel type, the three counts are `unsigned`. -/
structure starling_indel_report_info where
  it : INDEL.index_t
  repeat_unit_length : Nat
  ref_repeat_count : Nat
  indel_repeat_count : Nat
  ihpol : Nat
  desc : String

/-- The fields of `starling_base_options` that `Indelmodel.cpp` reads. -/
structure starling_base_options where
  indel_ref_error_factor : ℚ
  acov_alpha : ℚ

/-- The class `Indel_model`: the two bounds and the table `model`. -/
structure Indel_model where
  MaxMotifLength : Nat
  MaxTractLength : Nat
  model : Nat → Nat → ℚ × ℚ

/-- What `root` holds for `Deserialize`: the result of `asInt ()` on the two
bounds and the array `Model`, each leaf `[a, b]` given as the pair `(a, b)` of
`leaf[0].asDouble ()` and `leaf[1].asDouble ()`. -/
structure Json_root where
  MaxMotifLength : Int
  MaxTractLength : Int
  Model : List (List (ℚ × ℚ))

/-! ## Member functions -/

/-- The constructor `Indel_model::Indel_model ()`: both bounds are zero; the
table keeps what its storage `mem` holds. -/
def Indel_model.new (mem : Nat → Nat → ℚ × ℚ) : Indel_model :=
  { MaxMotifLength := 0, MaxTractLength := 0, model := mem }

/-- The member `Indel_model::add_prop`: `model[unit][tract] = myProps`. -/
def Indel_model.add_prop (self : Indel_model) (unit tract : Nat) (myProps : ℚ × ℚ) :
    Indel_model :=
  { self with model := fun u t => if u = unit ∧ t = tract then myProps else self.model u t }

/-- The inner loop of `Deserialize`, `for (; tract < jmodels[unit].size (); ++tract)`,
entered with `row` the leaves at positions `tract`, `tract + 1`, ... of
`jmodels[unit]`.  Returns the table and the value of `tract` at loop exit. -/
def Indel_model.Deserialize_tracts (self : Indel_model) (unit : Nat) :
    List (ℚ × ℚ) → Nat → Indel_model × Nat
  | [], tract => (self, tract)
  | leaf :: rest, tract =>
    Indel_model.Deserialize_tracts (self.add_prop unit tract (leaf.2, leaf.1)) unit rest
      (tract + 1)

/-- The outer loop of `Deserialize`, `for (; unit < jmodels.size (); ++unit)`,
entered with `rows` the rows at positions `unit`, `unit + 1`, ... of `jmodels`.
Each iteration restarts `tract` at zero.  Returns the table and the values of
`unit` and `tract` at loop exit. -/
def Indel_model.Deserialize_units (self : Indel_model) :
    List (List (ℚ × ℚ)) → Nat → Nat → Indel_model × Nat × Nat
  | [], unit, tract => (self, unit, tract)
  | row :: rest, unit, _ =>
    let r := self.Deserialize_tracts unit row 0
    Indel_model.Deserialize_units r.1 rest (unit + 1) r.2

/-- The member `Indel_model::Deserialize`.  The call to the base class
`serialized_model::Deserialize` reads header fields only and is left out.
With `ndebug = false` a failing `assert` ends the load with its message. -/
def Indel_model.Deserialize (ndebug : Bool) (self : Indel_model) (root : Json_root) :
    Except String Indel_model :=
  let s1 : Indel_model :=
    { self with MaxMotifLength := int_to_unsigned root.MaxMotifLength,
                MaxTractLength := int_to_unsigned root.MaxTractLength }
  let r := s1.Deserialize_units root.Model 0 0
  let s2 := r.1
  let unit := r.2.1
  let tract := r.2.2
  if !ndebug && !(unit == s2.MaxMotifLength) then
    Except.error "Unexpected motif length in indel model"
  else if !ndebug && !(decide (tract ≥ s2.MaxTractLength)) then
    Except.error "Unexpected tract length in indel model"
  else
    Except.ok s2

/-- The member `Indel_model::get_min_tract_length`. -/
def Indel_model.get_min_tract_length (_self : Indel_model)
    (iri : starling_indel_report_info) : Nat :=
  umul iri.repeat_unit_length 2

/-- The value of `indel_size` in `calc_prop`. -/
def indel_size (iri : starling_indel_report_info) (use_length_dependence : Bool) : Int :=
  if use_length_dependence then
    long_to_int |(iri.ref_repeat_count : Int) - (iri.indel_repeat_count : Int)|
  else 1

/-- The five-argument member `Indel_model::calc_prop`.  The result is
`Except.error` when the function throws, `Except.ok none` when it returns
without assigning its two output parameters, and
`Except.ok (some (indel_error_prob, ref_error_prob))` otherwise.  The table is
read as a total function, also at an index that wrapped around to `2 ^ 32 - 1`;
`calc_prop_checked` marks those calls. -/
def Indel_model.calc_prop (self : Indel_model) (client_opt : starling_base_options)
    (iri : starling_indel_report_info) (use_length_dependence : Bool) :
    Except String (Option (ℚ × ℚ)) :=
  let is_simple_indel : Bool :=
    decide (iri.it = INDEL.index_t.INSERT) || decide (iri.it = INDEL.index_t.DELETE)
  let repeat_unit := std_min (std_max iri.repeat_unit_length 1) self.MaxMotifLength
  let ref_hpol_len :=
    std_min (umul repeat_unit (std_max iri.ref_repeat_count 1)) self.MaxTractLength
  let indel_hpol_len :=
    std_min (umul repeat_unit (std_max iri.indel_repeat_count 1)) self.MaxTractLength
  let indel_size := indel_size iri use_length_dependence
  let min_tract_length := if repeat_unit = 1 then 1 else self.get_min_tract_length iri
  if !is_simple_indel then
    let baseline_ins_prob := (self.model 0 0).1
    let baseline_del_prob := (self.model 0 0).2
    let indel_error_prob := std_max baseline_ins_prob baseline_del_prob
    Except.ok (some (indel_error_prob, indel_error_prob))
  else
    let ref_query_len := std_max min_tract_length ref_hpol_len
    let indel_query_len := std_max min_tract_length indel_hpol_len
    if iri.repeat_unit_length ≤ self.MaxMotifLength then
      if iri.it = INDEL.index_t.INSERT then
        Except.ok (some
          (std_max (self.model 0 0).1
              (std_pow (self.model (upred repeat_unit) (upred ref_query_len)).1 indel_size),
           client_opt.indel_ref_error_factor
             * std_max (self.model 0 0).2
                 (std_pow (self.model (upred repeat_unit) (upred indel_query_len)).2
                   indel_size)))
      else if iri.it = INDEL.index_t.DELETE then
        Except.ok (some
          (std_max (self.model 0 0).2
              (std_pow (self.model (upred repeat_unit) (upred ref_query_len)).2 indel_size),
           client_opt.indel_ref_error_factor
             * std_max (self.model 0 0).1
                 (std_pow (self.model (upred repeat_unit) (upred indel_query_len)).1
                   indel_size)))
      else
        Except.error "Unknown indel type."
    else
      if iri.it = INDEL.index_t.INSERT then
        Except.ok (some ((self.model 0 0).1, (self.model 0 0).2))
      else if iri.it = INDEL.index_t.DELETE then
        Except.ok (some ((self.model 0 0).2, (self.model 0 0).1))
      else
        Except.ok none

/-- The four-argument member `Indel_model::calc_prop`. -/
def Indel_model.calc_prop_no_flag (self : Indel_model) (client_opt : starling_base_options)
    (iri : starling_indel_report_info) : Except String (Option (ℚ × ℚ)) :=
  let use_length_dependence := false
  self.calc_prop client_opt iri use_length_dependence

/-- The two-argument member `Indel_model::calc_prop`.  The statement
`if (client_opt.acov_alpha>0 && iri.ihpol>0) {}` evaluates its condition and has
an empty body; then `model[0][0]` is returned. -/
def Indel_model.calc_prop_pair (self : Indel_model) (client_opt : starling_base_options)
    (iri : starling_indel_report_info) : ℚ × ℚ :=
  let after_if : Indel_model :=
    if decide (client_opt.acov_alpha > 0) && decide (iri.ihpol > 0) then self else self
  after_if.model 0 0

/-- The value of the local `ref_query_len` of the five-argument `calc_prop`,
the tract length looked up for the reference repeat count. -/
def Indel_model.ref_query_len (self : Indel_model) (iri : starling_indel_report_info) : Nat :=
  let repeat_unit := std_min (std_max iri.repeat_unit_length 1) self.MaxMotifLength
  let ref_hpol_len :=
    std_min (umul repeat_unit (std_max iri.ref_repeat_count 1)) self.MaxTractLength
  let min_tract_length := if repeat_unit = 1 then 1 else self.get_min_tract_length iri
  std_max min_tract_length ref_hpol_len

/-- The value of the local `indel_query_len` of the five-argument `calc_prop`,
the tract length looked up for the indel repeat count. -/
def Indel_model.indel_query_len (self : Indel_model) (iri : starling_indel_report_info) : Nat :=
  let repeat_unit := std_min (std_max iri.repeat_unit_length 1) self.MaxMotifLength
  let indel_hpol_len :=
    std_min (umul repeat_unit (std_max iri.indel_repeat_count 1)) self.MaxTractLength
  let min_tract_length := if repeat_unit = 1 then 1 else self.get_min_tract_length iri
  std_max min_tract_length indel_hpol_len

/-- True when `calc_prop` takes the calibrated-row branch and one of its three
subtractions `repeat_unit - 1`, `ref_query_len - 1`, `indel_query_len - 1` is
`0 - 1`: the index is then `2 ^ 32 - 1` and the read `model[...][...]` is
outside the table. -/
def Indel_model.calc_prop_index_wraps (self : Indel_model)
    (iri : starling_indel_report_info) : Bool :=
  let is_simple_indel : Bool :=
    decide (iri.it = INDEL.index_t.INSERT) || decide (iri.it = INDEL.index_t.DELETE)
  let repeat_unit := std_min (std_max iri.repeat_unit_length 1) self.MaxMotifLength
  is_simple_indel && decide (iri.repeat_unit_length ≤ self.MaxMotifLength) &&
    (decide (repeat_unit = 0) || decide (self.ref_query_len iri = 0)
      || decide (self.indel_query_len iri = 0))

/-- The five-argument `calc_prop` with the reads outside the table made
visible: `none` when an index wraps around to `2 ^ 32 - 1`, where the behaviour
of the source is undefined, and the result of `calc_prop` otherwise. -/
def Indel_model.calc_prop_checked (self : Indel_model) (client_opt : starling_base_options)
    (iri : starling_indel_report_info) (use_length_dependence : Bool) :
    Option (Except String (Option (ℚ × ℚ))) :=
  if self.calc_prop_index_wraps iri then none
  else some (self.calc_prop client_opt iri use_length_dependence)

/-- The member `Indel_model::is_simple_tandem_repeat`. -/
def Indel_model.is_simple_tandem_repeat (self : Indel_model)
    (iri : starling_indel_report_info) : Bool :=
  let min_tract_length := self.get_min_tract_length iri
  if iri.repeat_unit_length ≤ self.MaxMotifLength ∧
      (iri.it = INDEL.index_t.DELETE ∨ iri.it = INDEL.index_t.INSERT) ∧
      (iri.ref_repeat_count ≥ min_tract_length ∨ iri.indel_repeat_count ≥ min_tract_length)
  then true
  else false

/-- The cells `model[u][t]` that the five-argument `calc_prop` reads, in the
order of the reads, branch by branch. -/
def Indel_model.calc_prop_reads (self : Indel_model) (iri : starling_indel_report_info) :
    List (Nat × Nat) :=
  let is_simple_indel : Bool :=
    decide (iri.it = INDEL.index_t.INSERT) || decide (iri.it = INDEL.index_t.DELETE)
  let repeat_unit := std_min (std_max iri.repeat_unit_length 1) self.MaxMotifLength
  let ref_hpol_len :=
    std_min (umul repeat_unit (std_max iri.ref_repeat_count 1)) self.MaxTractLength
  let indel_hpol_len :=
    std_min (umul repeat_unit (std_max iri.indel_repeat_count 1)) self.MaxTractLength
  let min_tract_length := if repeat_unit = 1 then 1 else self.get_min_tract_length iri
  if !is_simple_indel then
    [(0, 0), (0, 0)]
  else
    let ref_query_len := std_max min_tract_length ref_hpol_len
    let indel_query_len := std_max min_tract_length indel_hpol_len
    if iri.repeat_unit_length ≤ self.MaxMotifLength then
      [(0, 0), (upred repeat_unit, upred ref_query_len),
       (0, 0), (upred repeat_unit, upred indel_query_len)]
    else
      [(0, 0), (0, 0)]

/-- The cells that `Deserialize` writes for the document `root`: `(u, t)` with
`u` below the number of rows of `Model` and `t` below the length of row `u`. -/
def Json_root.populated (root : Json_root) (u t : Nat) : Bool :=
  match root.Model[u]? with
  | some row => decide (t < row.length)
  | none => false

/-- The leaf `Model[u][t]` of the document, when there is one. -/
def Json_root.leaf (root : Json_root) (u t : Nat) : Option (ℚ × ℚ) :=
  match root.Model[u]? with
  | some row => row[t]?
  | none => none

/-- The number of entries of the last row of `Model`, zero when `Model` has no
row. -/
def Json_root.last_row_length (root : Json_root) : Nat :=
  match root.Model.getLast? with
  | some row => row.length
  | none => 0

/-! ## The estimate algorithm in the words of the specification

Steps 2 to 8 of the algorithm for `estimate`, over the natural numbers, and the
two formulas of step 9. -/

/-- Step 2: `repeatUnit = clamp (repeatUnitLength, 1, maxMotifLength)`. -/
def spec_repeatUnit (M : Indel_model) (r : starling_indel_report_info) : Nat :=
  min (max r.repeat_unit_length 1) M.MaxMotifLength

/-- Step 3: `refTract = min (repeatUnit * max (refRepeatCount, 1), maxTractLength)`. -/
def spec_refTract (M : Indel_model) (r : starling_indel_report_info) : Nat :=
  min (spec_repeatUnit M r * max r.ref_repeat_count 1) M.MaxTractLength

/-- Step 4: `indelTract = min (repeatUnit * max (indelRepeatCount, 1), maxTractLength)`. -/
def spec_indelTract (M : Indel_model) (r : starling_indel_report_info) : Nat :=
  min (spec_repeatUnit M r * max r.indel_repeat_count 1) M.MaxTractLength

/-- Step 5: the exponent, `|refRepeatCount - indelRepeatCount|` when the flag is
set and `1` otherwise. -/
def spec_exponent (r : starling_indel_report_info) (useLengthDependence : Bool) : Nat :=
  if useLengthDependence then
    Int.natAbs ((r.ref_repeat_count : Int) - (r.indel_repeat_count : Int))
  else 1

/-- Step 6: `minTract = 2 * repeatUnitLength`, forced to `1` when `repeatUnit = 1`. -/
def spec_minTract (M : Indel_model) (r : starling_indel_report_info) : Nat :=
  if spec_repeatUnit M r = 1 then 1 else 2 * r.repeat_unit_length

/-- Step 8: `refQuery = max (minTract, refTract)`. -/
def spec_refQuery (M : Indel_model) (r : starling_indel_report_info) : Nat :=
  max (spec_minTract M r) (spec_refTract M r)

/-- Step 8: `indelQuery = max (minTract, indelTract)`. -/
def spec_indelQuery (M : Indel_model) (r : starling_indel_report_info) : Nat :=
  max (spec_minTract M r) (spec_indelTract M r)

/-- Step 9, INSERT: the pair `(indelErrorProb, refErrorProb)`. -/
def spec_estimate_insert (M : Indel_model) (o : starling_base_options)
    (r : starling_indel_report_info) (useLengthDependence : Bool) : ℚ × ℚ :=
  (max (M.model 0 0).1
      ((M.model (spec_repeatUnit M r - 1) (spec_refQuery M r - 1)).1
        ^ spec_exponent r useLengthDependence),
   o.indel_ref_error_factor
     * max (M.model 0 0).2
         ((M.model (spec_repeatUnit M r - 1) (spec_indelQuery M r - 1)).2
           ^ spec_exponent r useLengthDependence))

/-- Step 9, DELETE: the pair `(indelErrorProb, refErrorProb)`. -/
def spec_estimate_delete (M : Indel_model) (o : starling_base_options)
    (r : starling_indel_report_info) (useLengthDependence : Bool) : ℚ × ℚ :=
  (max (M.model 0 0).2
      ((M.model (spec_repeatUnit M r - 1) (spec_refQuery M r - 1)).2
        ^ spec_exponent r useLengthDependence),
   o.indel_ref_error_factor
     * max (M.model 0 0).1
         ((M.model (spec_repeatUnit M r - 1) (spec_indelQuery M r - 1)).1
           ^ spec_exponent r useLengthDependence))

/-! ## Concrete inputs -/

/-- The table of the end-to-end example: `entry (0, 0) = (0.001, 0.002)`,
`entry (0, 3) = (0.01, 0.02)`, zero elsewhere. -/
def example_table : Nat → Nat → ℚ × ℚ := fun u t =>
  if u = 0 ∧ t = 0 then (1 / 1000, 1 / 500)
  else if u = 0 ∧ t = 3 then (1 / 100, 1 / 50)
  else (0, 0)

/-- The model of the end-to-end example. -/
def example_model : Indel_model :=
  { MaxMotifLength := 3, MaxTractLength := 10, model := example_table }

/-- The options of the end-to-end example, `refErrorFactor = 1.5`. -/
def example_options : starling_base_options :=
  { indel_ref_error_factor := 3 / 2, acov_alpha := 0 }

/-- A report of the given type and counts. -/
def report (it : INDEL.index_t) (repeat_unit_length ref_repeat_count indel_repeat_count : Nat) :
    starling_indel_report_info :=
  { it := it, repeat_unit_length := repeat_unit_length, ref_repeat_count := ref_repeat_count,
    indel_repeat_count := indel_repeat_count, ihpol := 0, desc := "" }

/-- A table with a calibrated second row: `entry (0, 0) = (0.001, 0.002)`,
`entry (1, 3) = (0.01, 0.02)`, `entry (1, 9) = (0.1, 0.2)`, zero elsewhere. -/
def wide_table : Nat → Nat → ℚ × ℚ := fun u t =>
  if u = 0 ∧ t = 0 then (1 / 1000, 1 / 500)
  else if u = 1 ∧ t = 3 then (1 / 100, 1 / 50)
  else if u = 1 ∧ t = 9 then (1 / 10, 1 / 5)
  else (0, 0)

/-- A model with two rows and ten columns over `wide_table`. -/
def wide_model : Indel_model :=
  { MaxMotifLength := 2, MaxTractLength := 10, model := wide_table }

/-- A document that declares two rows and five columns but has a single row of
one leaf. -/
def short_document : Json_root :=
  { MaxMotifLength := 2, MaxTractLength := 5, Model := [[(1 / 1000, 1 / 500)]] }

/-- A document that declares two rows and four columns; its first row has one
leaf and its second row has four. -/
def jagged_document : Json_root :=
  { MaxMotifLength := 2, MaxTractLength := 4,
    Model := [[(1 / 500, 1 / 1000)],
              [(0, 0), (0, 0), (0, 0), (1 / 50, 1 / 100)]] }

/-- A table that holds `(0, 0)` everywhere. -/
def zero_table : Nat → Nat → ℚ × ℚ := fun _ _ => (0, 0)

/-- A table that holds `(1, 1)` everywhere. -/
def one_table : Nat → Nat → ℚ × ℚ := fun _ _ => (1, 1)

/-- The model `swap (M)`: every pair `(x, y)` of the table replaced by `(y, x)`,
the same bounds. -/
def swap_model (M : Indel_model) : Indel_model :=
  { M with model := fun u t => ((M.model u t).2, (M.model u t).1) }

/-- The report `flip (r)`: INSERT and DELETE exchanged, other types and all
other fields unchanged. -/
def flip_report (r : starling_indel_report_info) : starling_indel_report_info :=
  { r with it := match r.it with
      | INDEL.index_t.INSERT => INDEL.index_t.DELETE
      | INDEL.index_t.DELETE => INDEL.index_t.INSERT
      | INDEL.index_t.OTHER => INDEL.index_t.OTHER }

/-- A table that holds `(0.5, 0.5)` everywhere. -/
def half_table : Nat → Nat → ℚ × ℚ := fun _ _ => (1 / 2, 1 / 2)

/-- A model with one row and four columns over `half_table`. -/
def half_model : Indel_model :=
  { MaxMotifLength := 1, MaxTractLength := 4, model := half_table }

/-- A model with three rows and four columns over `example_table`. -/
def narrow_model : Indel_model :=
  { MaxMotifLength := 3, MaxTractLength := 4, model := example_table }

/-- Options with a negative `indel_ref_error_factor`. -/
def negative_options : starling_base_options :=
  { indel_ref_error_factor := -1, acov_alpha := 0 }

/-- Both components of a pair of the table are in the unit interval `[0, 1]`. -/
def unit_pair (p : ℚ × ℚ) : Prop := 0 ≤ p.1 ∧ p.1 ≤ 1 ∧ 0 ≤ p.2 ∧ p.2 ≤ 1

end Indelmodel

namespace Indelmodel

/-! ## Basic facts about the machine arithmetic -/

theorem std_max_eq_max {α : Type} [LinearOrder α] (a b : α) : std_max a b = max a b := by
  unfold std_max
  split_ifs with h
  · exact (max_eq_right (le_of_lt h)).symm
  · exact (max_eq_left (not_lt.mp h)).symm

theorem std_min_eq_min {α : Type} [LinearOrder α] (a b : α) : std_min a b = min a b := by
  unfold std_min
  split_ifs with h
  · exact (min_eq_right (le_of_lt h)).symm
  · exact (min_eq_left (not_lt.mp h)).symm

theorem umul_of_lt {a b : Nat} (h : a * b < 4294967296) : umul a b = a * b := by
  unfold umul UINT_RANGE
  exact Nat.mod_eq_of_lt h

theorem upred_of_pos {a : Nat} (h1 : 1 ≤ a) (h2 : a < 4294967296) : upred a = a - 1 := by
  unfold upred UINT_RANGE
  omega

theorem long_to_int_of_small {z : Int} (h0 : 0 ≤ z) (h1 : z < 2147483648) :
    long_to_int z = z := by
  unfold long_to_int
  omega

theorem std_pow_natCast (x : ℚ) (n : Nat) : std_pow x (n : Int) = x ^ n := by
  unfold std_pow
  exact zpow_natCast x n

theorem indel_size_false (iri : starling_indel_report_info) : indel_size iri false = 1 := by
  simp [indel_size]

theorem indel_size_eq_spec (r : starling_indel_report_info) (flag : Bool)
    (h : flag = true →
      Int.natAbs ((r.ref_repeat_count : Int) - (r.indel_repeat_count : Int)) < 2147483648) :
    indel_size r flag = (spec_exponent r flag : Int) := by
  unfold indel_size spec_exponent
  cases flag with
  | false => simp
  | true =>
    have h1 := h rfl
    simp only [if_true]
    rw [long_to_int_of_small (abs_nonneg _) (by rw [Int.abs_eq_natAbs]; exact_mod_cast h1)]
    exact Int.abs_eq_natAbs _

end Indelmodel

namespace Indelmodel

/-! ## The calibrated-row branch -/

theorem std_repeat_unit_eq (M : Indel_model) (r : starling_indel_report_info) :
    std_min (std_max r.repeat_unit_length 1) M.MaxMotifLength = spec_repeatUnit M r := by
  rw [std_min_eq_min, std_max_eq_max]; rfl

theorem spec_repeatUnit_pos (M : Indel_model) (r : starling_indel_report_info)
    (hM : 1 ≤ M.MaxMotifLength) : 1 ≤ spec_repeatUnit M r := by
  unfold spec_repeatUnit
  exact le_min (le_max_right _ _) hM

theorem spec_minTract_pos (M : Indel_model) (r : starling_indel_report_info) :
    1 ≤ spec_minTract M r ∨ spec_repeatUnit M r = 0 := by
  unfold spec_minTract
  split_ifs with h1
  · exact Or.inl (le_refl 1)
  · by_cases h0 : spec_repeatUnit M r = 0
    · exact Or.inr h0
    · left
      have h3 : spec_repeatUnit M r ≤ max r.repeat_unit_length 1 := min_le_left _ _
      rcases le_total r.repeat_unit_length 1 with h5 | h5
      · rw [max_eq_right h5] at h3; omega
      · rw [max_eq_left h5] at h3; omega

/-- Under the stated bounds the row index computed by `calc_prop` with 32-bit
arithmetic is `repeatUnit - 1` of step 2, and the column index computed for the
repeat count `c` is `max (minTract, min (repeatUnit * max (c, 1), maxTractLength)) - 1`
of steps 3 to 8, both over the natural numbers. -/
theorem calc_prop_indices (M : Indel_model) (r : starling_indel_report_info) (c : Nat)
    (hM : 1 ≤ M.MaxMotifLength)
    (hmin : 2 * r.repeat_unit_length < 4294967296)
    (hc : spec_repeatUnit M r * max c 1 < 4294967296) :
    upred (std_min (std_max r.repeat_unit_length 1) M.MaxMotifLength) = spec_repeatUnit M r - 1 ∧
    upred (std_max
        (if std_min (std_max r.repeat_unit_length 1) M.MaxMotifLength = 1 then 1
          else M.get_min_tract_length r)
        (std_min (umul (std_min (std_max r.repeat_unit_length 1) M.MaxMotifLength)
          (std_max c 1)) M.MaxTractLength))
      = max (spec_minTract M r) (min (spec_repeatUnit M r * max c 1) M.MaxTractLength) - 1 := by
  have hpos := spec_repeatUnit_pos M r hM
  have hmaxpos : 1 ≤ max c 1 := le_max_right _ _
  have hlt : spec_repeatUnit M r < 4294967296 :=
    lt_of_le_of_lt (Nat.le_mul_of_pos_right _ hmaxpos) hc
  rw [std_repeat_unit_eq, std_max_eq_max c 1, umul_of_lt hc, std_min_eq_min, std_max_eq_max]
  refine ⟨upred_of_pos hpos hlt, ?_⟩
  have hmt : (if spec_repeatUnit M r = 1 then 1 else M.get_min_tract_length r)
      = spec_minTract M r := by
    unfold spec_minTract Indel_model.get_min_tract_length
    rw [umul_of_lt (by omega), Nat.mul_comm]
  rw [hmt]
  have hmtpos : 1 ≤ spec_minTract M r := by
    rcases spec_minTract_pos M r with h | h
    · exact h
    · omega
  have hmtlt : spec_minTract M r < 4294967296 := by
    unfold spec_minTract
    split_ifs <;> omega
  exact upred_of_pos (le_trans hmtpos (le_max_left _ _))
    (max_lt hmtlt (lt_of_le_of_lt (min_le_left _ _) hc))

/-- Claim C1, amended.  For a model with `maxMotifLength >= 1` and a report of
type INSERT with `repeatUnitLength <= maxMotifLength`, provided the 32-bit
arithmetic of the code does not wrap around (`2 * repeatUnitLength`,
`repeatUnit * max (refRepeatCount, 1)` and `repeatUnit * max (indelRepeatCount, 1)`
are below `2 ^ 32`, and with the flag set `|refRepeatCount - indelRepeatCount|`
is below `2 ^ 31`), `calc_prop` returns the pair of step 9, INSERT:
`indelErrorProb = max (entry (0, 0).insertion, entry (repeatUnit - 1, refQuery - 1).insertion ^ exponent)`
and `refErrorProb = refErrorFactor * max (entry (0, 0).deletion, entry (repeatUnit - 1, indelQuery - 1).deletion ^ exponent)`. -/
theorem C1_insert_estimate (M : Indel_model) (o : starling_base_options)
    (r : starling_indel_report_info) (flag : Bool)
    (hit : r.it = INDEL.index_t.INSERT)
    (hrow : r.repeat_unit_length ≤ M.MaxMotifLength)
    (hM : 1 ≤ M.MaxMotifLength)
    (hmin : 2 * r.repeat_unit_length < 4294967296)
    (href : spec_repeatUnit M r * max r.ref_repeat_count 1 < 4294967296)
    (hindel : spec_repeatUnit M r * max r.indel_repeat_count 1 < 4294967296)
    (hexp : flag = true →
      Int.natAbs ((r.ref_repeat_count : Int) - (r.indel_repeat_count : Int)) < 2147483648) :
    M.calc_prop o r flag = Except.ok (some (spec_estimate_insert M o r flag)) := by
  obtain ⟨hu, hq1⟩ := calc_prop_indices M r r.ref_repeat_count hM hmin href
  obtain ⟨_, hq2⟩ := calc_prop_indices M r r.indel_repeat_count hM hmin hindel
  simp only [Indel_model.calc_prop, hit, hrow, hu, hq1, hq2]
  simp only [indel_size_eq_spec r flag hexp, std_pow_natCast, std_max_eq_max]
  simp [spec_estimate_insert, spec_refQuery, spec_indelQuery, spec_refTract, spec_indelTract]

/-- The end-to-end example: C1_insert_estimate applied to the table with
`entry (0, 0) = (0.001, 0.002)` and `entry (0, 3) = (0.01, 0.02)`,
`maxMotifLength = 3`, `maxTractLength = 10`, `refErrorFactor = 1.5` and the
report INSERT, 1, 4, 4 without length dependence gives `(0.01, 0.03)`. -/
theorem C1_insert_estimate_witness :
    example_model.calc_prop example_options (report INDEL.index_t.INSERT 1 4 4) false
      = Except.ok (some (1 / 100, 3 / 100)) := by
  rw [C1_insert_estimate example_model example_options (report INDEL.index_t.INSERT 1 4 4) false
    rfl (by decide) (by decide) (by decide) (by decide) (by decide) (by simp)]
  norm_num [spec_estimate_insert, spec_repeatUnit, spec_refQuery, spec_indelQuery,
    spec_minTract, spec_refTract, spec_indelTract, spec_exponent, example_model,
    example_options, example_table, report]

end Indelmodel

namespace Indelmodel

/-- Claim C1 fails as stated: with two rows, ten columns, the report INSERT with
`repeatUnitLength = 2`, `refRepeatCount = 2 ^ 31`, `indelRepeatCount = 1` and no
length dependence, `2 * 2 ^ 31` wraps to `0`, so the code looks up column
`max (4, 0) - 1 = 3` and returns `indelErrorProb = 0.01`, while the formula of
the claim has `refTract = min (2 ^ 32, 10) = 10`, column `9`, and gives `0.1`. -/
theorem C1_counterexample :
    (report INDEL.index_t.INSERT 2 2147483648 1).it = INDEL.index_t.INSERT ∧
    (report INDEL.index_t.INSERT 2 2147483648 1).repeat_unit_length ≤ wide_model.MaxMotifLength ∧
    wide_model.calc_prop example_options (report INDEL.index_t.INSERT 2 2147483648 1) false
      = Except.ok (some (1 / 100, 3 / 100)) ∧
    spec_estimate_insert wide_model example_options (report INDEL.index_t.INSERT 2 2147483648 1)
      false = (1 / 10, 3 / 100) ∧
    wide_model.calc_prop example_options (report INDEL.index_t.INSERT 2 2147483648 1) false
      ≠ Except.ok (some (spec_estimate_insert wide_model example_options
          (report INDEL.index_t.INSERT 2 2147483648 1) false)) := by
  have hcode : wide_model.calc_prop example_options
      (report INDEL.index_t.INSERT 2 2147483648 1) false
      = Except.ok (some (1 / 100, 3 / 100)) := by
    norm_num [Indel_model.calc_prop, Indel_model.get_min_tract_length, indel_size, std_pow,
      std_max, std_min, umul, upred, UINT_RANGE, wide_model, wide_table, example_options, report]
  have hspec : spec_estimate_insert wide_model example_options
      (report INDEL.index_t.INSERT 2 2147483648 1) false = (1 / 10, 3 / 100) := by
    norm_num [spec_estimate_insert, spec_repeatUnit, spec_refQuery, spec_indelQuery,
      spec_minTract, spec_refTract, spec_indelTract, spec_exponent, wide_model, wide_table,
      example_options, report]
  refine ⟨rfl, by decide, hcode, hspec, ?_⟩
  rw [hcode, hspec]
  norm_num

end Indelmodel

namespace Indelmodel

/-- Claim C2, amended.  For a model with `maxMotifLength >= 1` and a report of
type DELETE with `repeatUnitLength <= maxMotifLength`, provided the 32-bit
arithmetic of the code does not wrap around (`2 * repeatUnitLength`,
`repeatUnit * max (refRepeatCount, 1)` and `repeatUnit * max (indelRepeatCount, 1)`
are below `2 ^ 32`, and with the flag set `|refRepeatCount - indelRepeatCount|`
is below `2 ^ 31`), `calc_prop` returns the pair of step 9, DELETE:
`indelErrorProb = max (entry (0, 0).deletion, entry (repeatUnit - 1, refQuery - 1).deletion ^ exponent)`
and `refErrorProb = refErrorFactor * max (entry (0, 0).insertion, entry (repeatUnit - 1, indelQuery - 1).insertion ^ exponent)`. -/
theorem C2_delete_estimate (M : Indel_model) (o : starling_base_options)
    (r : starling_indel_report_info) (flag : Bool)
    (hit : r.it = INDEL.index_t.DELETE)
    (hrow : r.repeat_unit_length ≤ M.MaxMotifLength)
    (hM : 1 ≤ M.MaxMotifLength)
    (hmin : 2 * r.repeat_unit_length < 4294967296)
    (href : spec_repeatUnit M r * max r.ref_repeat_count 1 < 4294967296)
    (hindel : spec_repeatUnit M r * max r.indel_repeat_count 1 < 4294967296)
    (hexp : flag = true →
      Int.natAbs ((r.ref_repeat_count : Int) - (r.indel_repeat_count : Int)) < 2147483648) :
    M.calc_prop o r flag = Except.ok (some (spec_estimate_delete M o r flag)) := by
  obtain ⟨hu, hq1⟩ := calc_prop_indices M r r.ref_repeat_count hM hmin href
  obtain ⟨_, hq2⟩ := calc_prop_indices M r r.indel_repeat_count hM hmin hindel
  have hne : ¬ INDEL.index_t.DELETE = INDEL.index_t.INSERT := by decide
  simp only [Indel_model.calc_prop, hit, hrow, hu, hq1, hq2, hne]
  simp only [indel_size_eq_spec r flag hexp, std_pow_natCast, std_max_eq_max]
  simp [spec_estimate_delete, spec_refQuery, spec_indelQuery, spec_refTract, spec_indelTract]

/-- C2_delete_estimate applied to a deletion in the second row with length
dependence: `repeatUnitLength = 2`, `refRepeatCount = 5`, `indelRepeatCount = 3`
looks up column `10 - 1` for the reference tract and `6 - 1` for the indel
tract, with exponent `2`: `indelErrorProb = max (0.002, 0.2 ^ 2) = 0.04` and
`refErrorProb = 1.5 * max (0.001, 0 ^ 2) = 0.0015`. -/
theorem C2_delete_estimate_witness :
    wide_model.calc_prop example_options (report INDEL.index_t.DELETE 2 5 3) true
      = Except.ok (some (1 / 25, 3 / 2000)) := by
  rw [C2_delete_estimate wide_model example_options (report INDEL.index_t.DELETE 2 5 3) true
    rfl (by decide) (by decide) (by decide) (by decide) (by decide) (fun _ => by decide)]
  norm_num [spec_estimate_delete, spec_repeatUnit, spec_refQuery, spec_indelQuery,
    spec_minTract, spec_refTract, spec_indelTract, spec_exponent, wide_model, wide_table,
    example_options, report]

/-- Claim C2 fails as stated: with two rows, ten columns, the report DELETE with
`repeatUnitLength = 2`, `refRepeatCount = 2 ^ 31`, `indelRepeatCount = 1` and no
length dependence, `2 * 2 ^ 31` wraps to `0`, so the code looks up column
`max (4, 0) - 1 = 3` and returns `indelErrorProb = 0.02`, while the formula of
the claim has `refTract = min (2 ^ 32, 10) = 10`, column `9`, and gives `0.2`. -/
theorem C2_counterexample :
    (report INDEL.index_t.DELETE 2 2147483648 1).it = INDEL.index_t.DELETE ∧
    (report INDEL.index_t.DELETE 2 2147483648 1).repeat_unit_length ≤ wide_model.MaxMotifLength ∧
    wide_model.calc_prop example_options (report INDEL.index_t.DELETE 2 2147483648 1) false
      = Except.ok (some (1 / 50, 3 / 200)) ∧
    spec_estimate_delete wide_model example_options (report INDEL.index_t.DELETE 2 2147483648 1)
      false = (1 / 5, 3 / 200) ∧
    wide_model.calc_prop example_options (report INDEL.index_t.DELETE 2 2147483648 1) false
      ≠ Except.ok (some (spec_estimate_delete wide_model example_options
          (report INDEL.index_t.DELETE 2 2147483648 1) false)) := by
  have hcode : wide_model.calc_prop example_options
      (report INDEL.index_t.DELETE 2 2147483648 1) false
      = Except.ok (some (1 / 50, 3 / 200)) := by
    have hne : ¬ INDEL.index_t.DELETE = INDEL.index_t.INSERT := by decide
    norm_num [Indel_model.calc_prop, Indel_model.get_min_tract_length, indel_size, std_pow,
      std_max, std_min, umul, upred, UINT_RANGE, wide_model, wide_table, example_options, report,
      hne]
  have hspec : spec_estimate_delete wide_model example_options
      (report INDEL.index_t.DELETE 2 2147483648 1) false = (1 / 5, 3 / 200) := by
    norm_num [spec_estimate_delete, spec_repeatUnit, spec_refQuery, spec_indelQuery,
      spec_minTract, spec_refTract, spec_indelTract, spec_exponent, wide_model, wide_table,
      example_options, report]
  refine ⟨rfl, by decide, hcode, hspec, ?_⟩
  rw [hcode, hspec]
  norm_num

/-! ## The non-simple branch and the branch without a calibrated row -/

/-- Claim C3.  For a report whose type is neither INSERT nor DELETE, `calc_prop`
returns `indelErrorProb = refErrorProb = max (entry (0, 0).insertion, entry (0, 0).deletion)`;
any two such calls on the same model, whatever their options, reports and flags,
return the same pair. -/
theorem C3_non_simple (M : Indel_model) (o o2 : starling_base_options)
    (r r2 : starling_indel_report_info) (flag flag2 : Bool) :
    r.it ≠ INDEL.index_t.INSERT → r.it ≠ INDEL.index_t.DELETE →
    (M.calc_prop o r flag
        = Except.ok (some (max (M.model 0 0).1 (M.model 0 0).2,
            max (M.model 0 0).1 (M.model 0 0).2))) ∧
    (r2.it ≠ INDEL.index_t.INSERT → r2.it ≠ INDEL.index_t.DELETE →
      M.calc_prop o2 r2 flag2 = M.calc_prop o r flag) := by
  intro h1 h2
  have key : ∀ (o3 : starling_base_options) (r3 : starling_indel_report_info) (f3 : Bool),
      r3.it ≠ INDEL.index_t.INSERT → r3.it ≠ INDEL.index_t.DELETE →
      M.calc_prop o3 r3 f3
        = Except.ok (some (max (M.model 0 0).1 (M.model 0 0).2,
            max (M.model 0 0).1 (M.model 0 0).2)) := by
    intro o3 r3 f3 h3 h4
    simp [Indel_model.calc_prop, h3, h4, std_max_eq_max]
  refine ⟨key o r flag h1 h2, ?_⟩
  intro h3 h4
  rw [key o r flag h1 h2, key o2 r2 flag2 h3 h4]

/-- C3_non_simple at the table of the end-to-end example: two reports of type
OTHER with different counts, options and flags both give `(0.002, 0.002)`. -/
theorem C3_non_simple_witness :
    example_model.calc_prop example_options (report INDEL.index_t.OTHER 2 7 1) true
        = Except.ok (some (1 / 500, 1 / 500)) ∧
    example_model.calc_prop { indel_ref_error_factor := 5, acov_alpha := 1 }
        (report INDEL.index_t.OTHER 9 0 30) false
      = example_model.calc_prop example_options (report INDEL.index_t.OTHER 2 7 1) true := by
  have h := C3_non_simple example_model example_options
    { indel_ref_error_factor := 5, acov_alpha := 1 }
    (report INDEL.index_t.OTHER 2 7 1) (report INDEL.index_t.OTHER 9 0 30) true false
    (by decide) (by decide)
  refine ⟨?_, h.2 (by decide) (by decide)⟩
  rw [h.1]
  norm_num [example_model, example_table]

/-- Claim C4.  For a report with `repeatUnitLength > maxMotifLength`, `calc_prop`
returns `(entry (0, 0).insertion, entry (0, 0).deletion)` for type INSERT and
`(entry (0, 0).deletion, entry (0, 0).insertion)` for type DELETE; any other
call on the same model with a report of the same type and
`repeatUnitLength > maxMotifLength`, whatever its options (`refErrorFactor`),
repeat counts and flag, returns the same result. -/
theorem C4_no_calibrated_row (M : Indel_model) (o : starling_base_options)
    (r : starling_indel_report_info) (flag : Bool)
    (hrow : M.MaxMotifLength < r.repeat_unit_length) :
    (r.it = INDEL.index_t.INSERT →
      M.calc_prop o r flag = Except.ok (some ((M.model 0 0).1, (M.model 0 0).2))) ∧
    (r.it = INDEL.index_t.DELETE →
      M.calc_prop o r flag = Except.ok (some ((M.model 0 0).2, (M.model 0 0).1))) ∧
    (∀ (o2 : starling_base_options) (r2 : starling_indel_report_info) (flag2 : Bool),
      M.MaxMotifLength < r2.repeat_unit_length → r2.it = r.it →
      M.calc_prop o2 r2 flag2 = M.calc_prop o r flag) := by
  have hn : ¬ r.repeat_unit_length ≤ M.MaxMotifLength := not_le.mpr hrow
  refine ⟨?_, ?_, ?_⟩
  · intro hit
    simp [Indel_model.calc_prop, hit, hn]
  · intro hit
    simp [Indel_model.calc_prop, hit, hn]
  · intro o2 r2 flag2 hrow2 hit2
    have hn2 : ¬ r2.repeat_unit_length ≤ M.MaxMotifLength := not_le.mpr hrow2
    simp [Indel_model.calc_prop, hit2, hn, hn2]

/-- C4_no_calibrated_row at the table of the end-to-end example, which has three
rows: an insertion with `repeatUnitLength = 4` gives `(0.001, 0.002)`. -/
theorem C4_no_calibrated_row_witness :
    example_model.MaxMotifLength < (report INDEL.index_t.INSERT 4 6 2).repeat_unit_length ∧
    example_model.calc_prop example_options (report INDEL.index_t.INSERT 4 6 2) true
      = Except.ok (some (1 / 1000, 1 / 500)) := by
  refine ⟨by decide, ?_⟩
  rw [(C4_no_calibrated_row example_model example_options (report INDEL.index_t.INSERT 4 6 2)
    true (by decide)).1 rfl]
  norm_num [example_model, example_table]

end Indelmodel

namespace Indelmodel

/-! ## The overload without a flag, the baseline bound, tandem repeats -/

/-- Claim C8.  The four-argument `calc_prop` returns exactly what the
five-argument one returns with `use_length_dependence = false`, and with that
flag the exponent `indel_size` is `1`. -/
theorem C8_overload_without_flag (M : Indel_model) (o : starling_base_options)
    (r : starling_indel_report_info) :
    M.calc_prop_no_flag o r = M.calc_prop o r false ∧ indel_size r false = 1 :=
  ⟨rfl, indel_size_false r⟩

/-- Claim C9.  For a report of type INSERT with `repeatUnitLength <= maxMotifLength`,
`calc_prop` returns a pair whose `indelErrorProb` is at least
`entry (0, 0).insertion`. -/
theorem C9_insert_at_least_baseline (M : Indel_model) (o : starling_base_options)
    (r : starling_indel_report_info) (flag : Bool)
    (hit : r.it = INDEL.index_t.INSERT)
    (hrow : r.repeat_unit_length ≤ M.MaxMotifLength) :
    ∃ p : ℚ × ℚ, M.calc_prop o r flag = Except.ok (some p) ∧ (M.model 0 0).1 ≤ p.1 := by
  simp only [Indel_model.calc_prop, hit, hrow, std_max_eq_max]
  simp

/-- C9_insert_at_least_baseline at the end-to-end example. -/
theorem C9_insert_at_least_baseline_witness :
    ∃ p : ℚ × ℚ,
      example_model.calc_prop example_options (report INDEL.index_t.INSERT 1 4 4) true
        = Except.ok (some p) ∧ (example_model.model 0 0).1 ≤ p.1 :=
  C9_insert_at_least_baseline example_model example_options
    (report INDEL.index_t.INSERT 1 4 4) true rfl (by decide)

/-- Claim C10, amended.  For a report with `2 * repeatUnitLength < 2 ^ 32`,
`is_simple_tandem_repeat` is true if and only if
`repeatUnitLength <= maxMotifLength`, the type is INSERT or DELETE, and
`refRepeatCount >= 2 * repeatUnitLength` or `indelRepeatCount >= 2 * repeatUnitLength`. -/
theorem C10_simple_tandem_repeat (M : Indel_model) (r : starling_indel_report_info)
    (hmin : 2 * r.repeat_unit_length < 4294967296) :
    M.is_simple_tandem_repeat r = true ↔
      (r.repeat_unit_length ≤ M.MaxMotifLength ∧
        (r.it = INDEL.index_t.INSERT ∨ r.it = INDEL.index_t.DELETE) ∧
        (2 * r.repeat_unit_length ≤ r.ref_repeat_count ∨
          2 * r.repeat_unit_length ≤ r.indel_repeat_count)) := by
  have hm : umul r.repeat_unit_length 2 = 2 * r.repeat_unit_length := by
    rw [umul_of_lt (by omega), Nat.mul_comm]
  simp only [Indel_model.is_simple_tandem_repeat, Indel_model.get_min_tract_length, hm, ge_iff_le]
  split_ifs with h
  · simp only [true_iff]
    exact ⟨h.1, h.2.1.symm, h.2.2⟩
  · simp only [Bool.false_eq_true, false_iff]
    intro h2
    exact h ⟨h2.1, h2.2.1.symm, h2.2.2⟩

/-- C10_simple_tandem_repeat at the two examples of the specification: INSERT
with `repeatUnitLength = 2` and `refRepeatCount = 4` is a simple tandem repeat
in a model with three rows; with `refRepeatCount = 3` and
`indelRepeatCount = 3` it is not. -/
theorem C10_simple_tandem_repeat_witness :
    example_model.is_simple_tandem_repeat (report INDEL.index_t.INSERT 2 4 0) = true ∧
    example_model.is_simple_tandem_repeat (report INDEL.index_t.INSERT 2 3 3) = false := by
  constructor
  · exact (C10_simple_tandem_repeat example_model (report INDEL.index_t.INSERT 2 4 0)
      (by decide)).2 (by decide)
  · rw [Bool.eq_false_iff]
    intro h
    have h2 := (C10_simple_tandem_repeat example_model (report INDEL.index_t.INSERT 2 3 3)
      (by decide)).1 h
    revert h2
    decide

/-- Claim C10 fails as stated: `2 * 2 ^ 31` wraps to `0`, so for a model with
`MaxMotifLength = 2 ^ 31` and the report INSERT with `repeatUnitLength = 2 ^ 31`
and both repeat counts `1` the code answers true, although neither count
reaches `2 * repeatUnitLength = 2 ^ 32`. -/
theorem C10_counterexample :
    (Indel_model.mk 2147483648 10 example_table).is_simple_tandem_repeat
        (report INDEL.index_t.INSERT 2147483648 1 1) = true ∧
    ¬ ((report INDEL.index_t.INSERT 2147483648 1 1).repeat_unit_length
          ≤ (Indel_model.mk 2147483648 10 example_table).MaxMotifLength ∧
        ((report INDEL.index_t.INSERT 2147483648 1 1).it = INDEL.index_t.INSERT ∨
          (report INDEL.index_t.INSERT 2147483648 1 1).it = INDEL.index_t.DELETE) ∧
        (2 * (report INDEL.index_t.INSERT 2147483648 1 1).repeat_unit_length
            ≤ (report INDEL.index_t.INSERT 2147483648 1 1).ref_repeat_count ∨
          2 * (report INDEL.index_t.INSERT 2147483648 1 1).repeat_unit_length
            ≤ (report INDEL.index_t.INSERT 2147483648 1 1).indel_repeat_count)) := by
  constructor
  · decide
  · decide

end Indelmodel

namespace Indelmodel

/-! ## The loops of `Deserialize` -/

theorem Deserialize_tracts_exit (s : Indel_model) (unit : Nat) (row : List (ℚ × ℚ))
    (tract : Nat) :
    (s.Deserialize_tracts unit row tract).2 = tract + row.length ∧
    (s.Deserialize_tracts unit row tract).1.MaxMotifLength = s.MaxMotifLength ∧
    (s.Deserialize_tracts unit row tract).1.MaxTractLength = s.MaxTractLength := by
  induction row generalizing s tract with
  | nil => simp [Indel_model.Deserialize_tracts]
  | cons leaf rest ih =>
    simp only [Indel_model.Deserialize_tracts, List.length_cons]
    obtain ⟨h1, h2, h3⟩ := ih (s.add_prop unit tract (leaf.2, leaf.1)) (tract + 1)
    refine ⟨by rw [h1]; omega, ?_, ?_⟩
    · rw [h2]; rfl
    · rw [h3]; rfl

theorem Deserialize_tracts_model (s : Indel_model) (unit : Nat) (row : List (ℚ × ℚ))
    (tract u t : Nat) :
    (s.Deserialize_tracts unit row tract).1.model u t =
      if u = unit ∧ tract ≤ t then
        match row[t - tract]? with
        | some leaf => (leaf.2, leaf.1)
        | none => s.model u t
      else s.model u t := by
  induction row generalizing s tract with
  | nil => simp [Indel_model.Deserialize_tracts]
  | cons leaf rest ih =>
    simp only [Indel_model.Deserialize_tracts]
    rw [ih]
    by_cases hu : u = unit
    · rcases Nat.lt_trichotomy t tract with hlt | heq | hgt
      · have h1 : ¬ (tract + 1 ≤ t) := by omega
        have h2 : ¬ (tract ≤ t) := by omega
        have h3 : ¬ (t = tract) := by omega
        simp [hu, h1, h2, h3, Indel_model.add_prop]
      · subst heq
        simp [hu, Indel_model.add_prop]
      · have h1 : tract + 1 ≤ t := hgt
        have h2 : tract ≤ t := by omega
        have h3 : t - tract = (t - (tract + 1)) + 1 := by omega
        have h4 : ¬ (t = tract) := by omega
        simp only [hu, h1, h2, h3, h4, and_self, if_true, List.getElem?_cons_succ,
          Indel_model.add_prop, and_false, if_false]
    · simp [hu, Indel_model.add_prop]

theorem Deserialize_units_exit (s : Indel_model) (rows : List (List (ℚ × ℚ)))
    (unit tract : Nat) :
    (s.Deserialize_units rows unit tract).2.1 = unit + rows.length ∧
    (s.Deserialize_units rows unit tract).2.2
      = (match rows.getLast? with
         | some row => row.length
         | none => tract) ∧
    (s.Deserialize_units rows unit tract).1.MaxMotifLength = s.MaxMotifLength ∧
    (s.Deserialize_units rows unit tract).1.MaxTractLength = s.MaxTractLength := by
  induction rows generalizing s unit tract with
  | nil => simp [Indel_model.Deserialize_units]
  | cons row rest ih =>
    simp only [Indel_model.Deserialize_units, List.length_cons]
    obtain ⟨h1, h2, h3, h4⟩ := ih (s.Deserialize_tracts unit row 0).1 (unit + 1)
      (s.Deserialize_tracts unit row 0).2
    obtain ⟨e1, e2, e3⟩ := Deserialize_tracts_exit s unit row 0
    refine ⟨by rw [h1]; omega, ?_, by rw [h3, e2], by rw [h4, e3]⟩
    rw [h2, e1]
    cases rest with
    | nil => simp
    | cons row2 rest2 =>
      rw [List.getLast?_cons_cons]
      rw [List.getLast?_eq_getLast (row2 :: rest2) (List.cons_ne_nil row2 rest2)]

theorem Deserialize_units_model (s : Indel_model) (rows : List (List (ℚ × ℚ)))
    (unit tract u t : Nat) :
    (s.Deserialize_units rows unit tract).1.model u t =
      if unit ≤ u then
        match rows[u - unit]? with
        | some row =>
          (match row[t]? with
           | some leaf => (leaf.2, leaf.1)
           | none => s.model u t)
        | none => s.model u t
      else s.model u t := by
  induction rows generalizing s unit tract with
  | nil => simp [Indel_model.Deserialize_units]
  | cons row rest ih =>
    simp only [Indel_model.Deserialize_units]
    rw [ih, Deserialize_tracts_model]
    rcases Nat.lt_trichotomy u unit with hlt | heq | hgt
    · have h1 : ¬ (unit + 1 ≤ u) := by omega
      have h2 : ¬ (unit ≤ u) := by omega
      have h3 : ¬ (u = unit) := by omega
      simp [h1, h2, h3]
    · subst heq
      simp
    · have h1 : unit + 1 ≤ u := hgt
      have h2 : unit ≤ u := by omega
      have h3 : u - unit = (u - (unit + 1)) + 1 := by omega
      have h4 : ¬ (u = unit) := by omega
      simp only [h1, h2, h3, h4, if_true, List.getElem?_cons_succ, false_and, if_false]

end Indelmodel

namespace Indelmodel

/-! ## `Deserialize` -/

/-- What a successful load leaves in the model: the two bounds converted to
`unsigned`, and in each cell the swapped leaf of the document when the document
has a leaf there, the previous content of the cell otherwise. -/
theorem Deserialize_result (ndebug : Bool) (self : Indel_model) (root : Json_root)
    (m : Indel_model) (h : self.Deserialize ndebug root = Except.ok m) :
    m.MaxMotifLength = int_to_unsigned root.MaxMotifLength ∧
    m.MaxTractLength = int_to_unsigned root.MaxTractLength ∧
    ∀ u t : Nat, m.model u t =
      match root.leaf u t with
      | some leaf => (leaf.2, leaf.1)
      | none => self.model u t := by
  unfold Indel_model.Deserialize at h
  simp only at h
  split_ifs at h
  have hm := Except.ok.inj h
  subst hm
  obtain ⟨_, _, h3, h4⟩ := Deserialize_units_exit
    { self with MaxMotifLength := int_to_unsigned root.MaxMotifLength,
                MaxTractLength := int_to_unsigned root.MaxTractLength } root.Model 0 0
  refine ⟨h3, h4, ?_⟩
  intro u t
  rw [Deserialize_units_model]
  simp only [Nat.zero_le, if_true, Nat.sub_zero, Json_root.leaf]
  cases root.Model[u]? with
  | none => rfl
  | some row => cases row[t]? <;> rfl

/-- With assertions compiled in, the load succeeds exactly when the number of
rows is `MaxMotifLength` and the last row (of length zero when there is no row)
has at least `MaxTractLength` entries, both bounds taken as `unsigned`. -/
theorem Deserialize_debug_ok_iff (self : Indel_model) (root : Json_root) :
    (∃ m, self.Deserialize false root = Except.ok m) ↔
      (root.Model.length = int_to_unsigned root.MaxMotifLength ∧
        int_to_unsigned root.MaxTractLength ≤ root.last_row_length) := by
  obtain ⟨h1, h2, h3, h4⟩ := Deserialize_units_exit
    { self with MaxMotifLength := int_to_unsigned root.MaxMotifLength,
                MaxTractLength := int_to_unsigned root.MaxTractLength } root.Model 0 0
  have hlast : (match root.Model.getLast? with
      | some row => row.length
      | none => 0) = root.last_row_length := rfl
  rw [hlast] at h2
  unfold Indel_model.Deserialize
  simp only [h1, h2, h3, h4, Bool.not_false, Bool.true_and, Nat.zero_add, ge_iff_le]
  by_cases hu : root.Model.length = int_to_unsigned root.MaxMotifLength
  · by_cases ht : int_to_unsigned root.MaxTractLength ≤ root.last_row_length
    · simp [hu, ht]
    · simp [hu, ht]
  · simp [hu]

/-- With assertions compiled out, the load succeeds on every document. -/
theorem Deserialize_ndebug_ok (self : Indel_model) (root : Json_root) :
    ∃ m, self.Deserialize true root = Except.ok m := by
  unfold Indel_model.Deserialize
  simp

/-- Claim C5, the code at the failing input.  The document `short_document`
declares `MaxMotifLength = 2` and `MaxTractLength = 5` but has one row of one
leaf.  With assertions compiled in the load fails; with `NDEBUG` the load
succeeds and leaves a model with `MaxMotifLength = 2` and `MaxTractLength = 5`. -/
theorem C5_ndebug_load_accepts_short_document :
    short_document.Model.length = 1 ∧ short_document.last_row_length = 1 ∧
    (¬ ∃ m, (Indel_model.new zero_table).Deserialize false short_document = Except.ok m) ∧
    (∃ m, (Indel_model.new zero_table).Deserialize true short_document = Except.ok m ∧
      m.MaxMotifLength = 2 ∧ m.MaxTractLength = 5) := by
  refine ⟨rfl, rfl, ?_, ?_⟩
  · rw [Deserialize_debug_ok_iff]
    decide
  · obtain ⟨m, hm⟩ := Deserialize_ndebug_ok (Indel_model.new zero_table) short_document
    obtain ⟨h1, h2, _⟩ := Deserialize_result true _ _ m hm
    exact ⟨m, hm, by rw [h1]; decide, by rw [h2]; decide⟩

end Indelmodel

namespace Indelmodel

/-- The list `calc_prop_reads` covers the reads of `calc_prop`: two models with
the same bounds whose tables agree on the cells of the list give the same
result. -/
theorem calc_prop_depends_on_reads (M M2 : Indel_model) (o : starling_base_options)
    (r : starling_indel_report_info) (flag : Bool)
    (hM : M2.MaxMotifLength = M.MaxMotifLength) (hT : M2.MaxTractLength = M.MaxTractLength)
    (h : ∀ c ∈ M.calc_prop_reads r, M2.model c.1 c.2 = M.model c.1 c.2) :
    M2.calc_prop o r flag = M.calc_prop o r flag := by
  unfold Indel_model.calc_prop_reads at h
  unfold Indel_model.calc_prop
  simp only [hM, hT, Indel_model.get_min_tract_length] at h ⊢
  by_cases hs : (decide (r.it = INDEL.index_t.INSERT) || decide (r.it = INDEL.index_t.DELETE))
      = true
  · simp only [hs, Bool.not_true, Bool.false_eq_true, if_false] at h ⊢
    by_cases hrow : r.repeat_unit_length ≤ M.MaxMotifLength
    · simp only [hrow, if_true, List.mem_cons, List.mem_singleton, forall_eq_or_imp,
        forall_eq, List.not_mem_nil, false_imp_iff, implies_true, and_true] at h ⊢
      obtain ⟨h0, h1, _, h2⟩ := h
      rw [h0, h1, h2]
    · simp only [hrow, if_false, List.mem_cons, List.mem_singleton, forall_eq_or_imp,
        forall_eq, List.not_mem_nil, false_imp_iff, implies_true, and_true] at h ⊢
      rw [h.1]
  · simp only [hs, Bool.not_false, if_true, List.mem_cons, List.mem_singleton,
      forall_eq_or_imp, forall_eq, List.not_mem_nil, false_imp_iff, implies_true,
      and_true] at h ⊢
    rw [h.1]

/-- Claim C7, the code at the failing input.  The document `jagged_document`
declares two rows and four columns; its first row has one leaf, its last row
four, so the load succeeds even with assertions compiled in.  For the report
INSERT with `repeatUnitLength = 1` and both repeat counts `4`, `calc_prop` reads
the cell `(0, 3)`, which the load did not write; the estimate returned is
`(0.001, 0.003)` when the table held zeros before the load and `(1, 1.5)` when
it held ones. -/
theorem C7_estimate_reads_unpopulated_cell :
    jagged_document.populated 0 3 = false ∧
    (∃ m, (Indel_model.new zero_table).Deserialize false jagged_document = Except.ok m ∧
      (0, 3) ∈ m.calc_prop_reads (report INDEL.index_t.INSERT 1 4 4) ∧
      m.calc_prop example_options (report INDEL.index_t.INSERT 1 4 4) false
        = Except.ok (some (1 / 1000, 3 / 1000))) ∧
    (∃ m, (Indel_model.new one_table).Deserialize false jagged_document = Except.ok m ∧
      (0, 3) ∈ m.calc_prop_reads (report INDEL.index_t.INSERT 1 4 4) ∧
      m.calc_prop example_options (report INDEL.index_t.INSERT 1 4 4) false
        = Except.ok (some (1, 3 / 2))) := by
  refine ⟨by decide, ?_, ?_⟩
  · obtain ⟨m, hm⟩ :=
      (Deserialize_debug_ok_iff (Indel_model.new zero_table) jagged_document).2 (by decide)
    obtain ⟨h1, h2, h3⟩ := Deserialize_result false _ _ m hm
    have hM : m.MaxMotifLength = 2 := by rw [h1]; decide
    have hT : m.MaxTractLength = 4 := by rw [h2]; decide
    have h00 : m.model 0 0 = (1 / 1000, 1 / 500) := by
      rw [h3]; simp [Json_root.leaf, jagged_document]
    have h03 : m.model 0 3 = (0, 0) := by
      rw [h3]; simp [Json_root.leaf, jagged_document, Indel_model.new, zero_table]
    refine ⟨m, hm, ?_, ?_⟩
    · simp [Indel_model.calc_prop_reads, hM, hT, std_min, std_max, umul, upred, UINT_RANGE,
        report]
    · norm_num [Indel_model.calc_prop, hM, hT, std_min, std_max, umul, upred, UINT_RANGE,
        report, indel_size, std_pow, h00, h03, example_options]
  · obtain ⟨m, hm⟩ :=
      (Deserialize_debug_ok_iff (Indel_model.new one_table) jagged_document).2 (by decide)
    obtain ⟨h1, h2, h3⟩ := Deserialize_result false _ _ m hm
    have hM : m.MaxMotifLength = 2 := by rw [h1]; decide
    have hT : m.MaxTractLength = 4 := by rw [h2]; decide
    have h00 : m.model 0 0 = (1 / 1000, 1 / 500) := by
      rw [h3]; simp [Json_root.leaf, jagged_document]
    have h03 : m.model 0 3 = (1, 1) := by
      rw [h3]; simp [Json_root.leaf, jagged_document, Indel_model.new, one_table]
    refine ⟨m, hm, ?_, ?_⟩
    · simp [Indel_model.calc_prop_reads, hM, hT, std_min, std_max, umul, upred, UINT_RANGE,
        report]
    · norm_num [Indel_model.calc_prop, hM, hT, std_min, std_max, umul, upred, UINT_RANGE,
        report, indel_size, std_pow, h00, h03, example_options]

end Indelmodel

namespace Indelmodel

/-! ## The table accessors, the baseline, the minimum tract length -/

/-- Claim C11.  For every table, all indices `(u, t)` (in particular those with
`u < maxMotifLength` and `t < maxTractLength`) and all pairs `p` and `q`: after
`add_prop (u, t, p)` the cell `(u, t)` holds exactly `p`, and after
`add_prop (u, t, p)` followed by `add_prop (u, t, q)` it holds exactly `q`. -/
theorem C11_add_prop_then_read (M : Indel_model) (u t : Nat) (p q : ℚ × ℚ) :
    (M.add_prop u t p).model u t = p ∧
    ((M.add_prop u t p).add_prop u t q).model u t = q := by
  simp [Indel_model.add_prop]

/-- Claim C12.  The two-argument `calc_prop` returns `model[0][0]` unchanged,
and any two calls on the same model, whatever their options (among them
`acov_alpha`) and reports, return the same pair. -/
theorem C12_baseline (M : Indel_model) (o o2 : starling_base_options)
    (r r2 : starling_indel_report_info) :
    M.calc_prop_pair o r = M.model 0 0 ∧ M.calc_prop_pair o2 r2 = M.calc_prop_pair o r := by
  simp [Indel_model.calc_prop_pair]

/-- The five-argument `calc_prop` assigns its two outputs on every input. -/
theorem calc_prop_assigns (M : Indel_model) (o : starling_base_options)
    (r : starling_indel_report_info) (flag : Bool) :
    ∃ p : ℚ × ℚ, M.calc_prop o r flag = Except.ok (some p) := by
  unfold Indel_model.calc_prop
  rcases hit : r.it with _ | _ | _ <;> by_cases hrow : r.repeat_unit_length ≤ M.MaxMotifLength <;>
    simp [hrow]

/-- Claim C13.  For every model, options, report and flag, `calc_prop` does not
throw: its result is never `Except.error`, so the arm "Unknown indel type." of
the calibrated-row branch is not reached. -/
theorem C13_never_throws (M : Indel_model) (o : starling_base_options)
    (r : starling_indel_report_info) (flag : Bool) (e : String) :
    M.calc_prop o r flag ≠ Except.error e := by
  obtain ⟨p, hp⟩ := calc_prop_assigns M o r flag
  rw [hp]
  exact fun h => Except.noConfusion h

/-- Claim C20.  For every model, options, report and flag, `calc_prop` does not
return with its outputs unassigned: it assigns both outputs or throws. -/
theorem C20_outputs_assigned (M : Indel_model) (o : starling_base_options)
    (r : starling_indel_report_info) (flag : Bool) :
    M.calc_prop o r flag ≠ Except.ok none ∧
    ((∃ p : ℚ × ℚ, M.calc_prop o r flag = Except.ok (some p)) ∨
      (∃ e : String, M.calc_prop o r flag = Except.error e)) := by
  obtain ⟨p, hp⟩ := calc_prop_assigns M o r flag
  refine ⟨?_, Or.inl ⟨p, hp⟩⟩
  rw [hp]
  intro h
  exact Option.noConfusion (Except.ok.inj h)

/-- Claim C14, amended.  `get_min_tract_length` returns `2 * repeatUnitLength`
reduced modulo `2 ^ 32`, hence `2 * repeatUnitLength` itself when
`repeatUnitLength < 2 ^ 31`; the value depends on no other field of the report
and not on the model. -/
theorem C14_min_tract_length (M : Indel_model) (r : starling_indel_report_info) :
    M.get_min_tract_length r = (2 * r.repeat_unit_length) % 4294967296 ∧
    (r.repeat_unit_length < 2147483648 → M.get_min_tract_length r = 2 * r.repeat_unit_length) ∧
    (∀ (M2 : Indel_model) (r2 : starling_indel_report_info),
      r2.repeat_unit_length = r.repeat_unit_length →
      M2.get_min_tract_length r2 = M.get_min_tract_length r) := by
  refine ⟨?_, ?_, ?_⟩
  · unfold Indel_model.get_min_tract_length umul UINT_RANGE
    rw [Nat.mul_comm]
  · intro h
    unfold Indel_model.get_min_tract_length
    rw [umul_of_lt (by omega), Nat.mul_comm]
  · intro M2 r2 h
    unfold Indel_model.get_min_tract_length
    rw [h]

/-- C14_min_tract_length at the example of the specification:
`repeatUnitLength = 3` gives `6`. -/
theorem C14_min_tract_length_witness :
    example_model.get_min_tract_length (report INDEL.index_t.INSERT 3 0 0) = 6 :=
  (C14_min_tract_length example_model (report INDEL.index_t.INSERT 3 0 0)).2.1 (by decide)

/-- Claim C14 fails as stated: for `repeatUnitLength = 2 ^ 31` the product
`repeat_unit_length * 2` wraps around and `get_min_tract_length` returns `0`,
not `2 ^ 32`. -/
theorem C14_counterexample :
    example_model.get_min_tract_length (report INDEL.index_t.INSERT 2147483648 0 0) = 0 ∧
    example_model.get_min_tract_length (report INDEL.index_t.INSERT 2147483648 0 0)
      ≠ 2 * (report INDEL.index_t.INSERT 2147483648 0 0).repeat_unit_length := by
  constructor
  · decide
  · decide

end Indelmodel

namespace Indelmodel

/-! ## Symmetry and the exponent zero -/

/-- Claim C16.  Exchanging the two components of every table pair and
exchanging INSERT and DELETE in the report leaves the result of `calc_prop`
unchanged, for every model, options, report and flag. -/
theorem C16_insert_delete_symmetry (M : Indel_model) (o : starling_base_options)
    (r : starling_indel_report_info) (flag : Bool) :
    (swap_model M).calc_prop o (flip_report r) flag = M.calc_prop o r flag := by
  have hsize : indel_size (flip_report r) flag = indel_size r flag := rfl
  unfold Indel_model.calc_prop
  rw [hsize]
  rcases hit : r.it with _ | _ | _ <;>
    by_cases hrow : r.repeat_unit_length ≤ M.MaxMotifLength <;>
    simp [swap_model, flip_report, hit, hrow, Indel_model.get_min_tract_length,
      std_max_eq_max, max_comm]

/-- The minimum tract length used by `calc_prop` is at least `1` when the model
has a row and `2 * repeatUnitLength` does not wrap around, so neither tract
length looked up is `0`. -/
theorem query_len_pos (M : Indel_model) (r : starling_indel_report_info) (c : Nat)
    (hM : 1 ≤ M.MaxMotifLength) (hmin : 2 * r.repeat_unit_length < 4294967296) :
    1 ≤ std_max
        (if std_min (std_max r.repeat_unit_length 1) M.MaxMotifLength = 1 then 1
          else M.get_min_tract_length r)
        (std_min (umul (std_min (std_max r.repeat_unit_length 1) M.MaxMotifLength)
          (std_max c 1)) M.MaxTractLength) := by
  rw [std_max_eq_max, std_repeat_unit_eq]
  have hmt : (if spec_repeatUnit M r = 1 then 1 else M.get_min_tract_length r)
      = spec_minTract M r := by
    unfold spec_minTract Indel_model.get_min_tract_length
    rw [umul_of_lt (by omega), Nat.mul_comm]
  rw [hmt]
  have hpos := spec_repeatUnit_pos M r hM
  rcases spec_minTract_pos M r with h | h
  · exact le_trans h (le_max_left _ _)
  · omega

/-- With a row in the model and no wrap-around of `2 * repeatUnitLength`, no
index of `calc_prop` wraps around. -/
theorem calc_prop_index_wraps_false (M : Indel_model) (r : starling_indel_report_info)
    (hM : 1 ≤ M.MaxMotifLength) (hmin : 2 * r.repeat_unit_length < 4294967296) :
    M.calc_prop_index_wraps r = false := by
  have h0 : std_min (std_max r.repeat_unit_length 1) M.MaxMotifLength ≠ 0 := by
    rw [std_repeat_unit_eq]
    have := spec_repeatUnit_pos M r hM
    omega
  have h1 : M.ref_query_len r ≠ 0 := by
    have h : 1 ≤ M.ref_query_len r := query_len_pos M r r.ref_repeat_count hM hmin
    omega
  have h2 : M.indel_query_len r ≠ 0 := by
    have h : 1 ≤ M.indel_query_len r := query_len_pos M r r.indel_repeat_count hM hmin
    omega
  simp [Indel_model.calc_prop_index_wraps, h0, h1, h2]

/-- Claim C18, amended.  For a model with `maxMotifLength >= 1` whose
`entry (0, 0)` components are at most `1` and a report of type INSERT or DELETE
with `repeatUnitLength <= maxMotifLength`, `2 * repeatUnitLength < 2 ^ 32` and
`refRepeatCount = indelRepeatCount`, `calc_prop` with length dependence has
exponent `0`, no index wraps around, and the result is `indelErrorProb = 1` and
`refErrorProb = refErrorFactor`. -/
theorem C18_equal_counts_with_length_dependence (M : Indel_model) (o : starling_base_options)
    (r : starling_indel_report_info)
    (hM : 1 ≤ M.MaxMotifLength)
    (hmin : 2 * r.repeat_unit_length < 4294967296)
    (h1 : (M.model 0 0).1 ≤ 1) (h2 : (M.model 0 0).2 ≤ 1)
    (hit : r.it = INDEL.index_t.INSERT ∨ r.it = INDEL.index_t.DELETE)
    (hrow : r.repeat_unit_length ≤ M.MaxMotifLength)
    (heq : r.ref_repeat_count = r.indel_repeat_count) :
    indel_size r true = 0 ∧
    M.calc_prop o r true = Except.ok (some (1, o.indel_ref_error_factor)) ∧
    M.calc_prop_checked o r true
      = some (Except.ok (some (1, o.indel_ref_error_factor))) := by
  have hsize : indel_size r true = 0 := by
    simp [indel_size, heq, long_to_int]
  have hres : M.calc_prop o r true = Except.ok (some (1, o.indel_ref_error_factor)) := by
    have hne : ¬ INDEL.index_t.DELETE = INDEL.index_t.INSERT := by decide
    unfold Indel_model.calc_prop
    rw [hsize]
    rcases hit with hit | hit
    · simp only [hit, hrow, std_max_eq_max, std_pow, zpow_zero, max_eq_right h1,
        max_eq_right h2]
      simp
    · simp only [hit, hrow, hne, std_max_eq_max, std_pow, zpow_zero, max_eq_right h1,
        max_eq_right h2]
      simp
  refine ⟨hsize, hres, ?_⟩
  unfold Indel_model.calc_prop_checked
  rw [calc_prop_index_wraps_false M r hM hmin, hres]
  simp

/-- C18_equal_counts_with_length_dependence at the model of the end-to-end
example: an insertion with both repeat counts `4` and length dependence gives
`(1, 1.5)`. -/
theorem C18_equal_counts_with_length_dependence_witness :
    example_model.calc_prop example_options (report INDEL.index_t.INSERT 1 4 4) true
        = Except.ok (some (1, 3 / 2)) ∧
    example_model.calc_prop_checked example_options (report INDEL.index_t.INSERT 1 4 4) true
        = some (Except.ok (some (1, 3 / 2))) :=
  (C18_equal_counts_with_length_dependence example_model example_options
    (report INDEL.index_t.INSERT 1 4 4) (by decide) (by decide)
    (by norm_num [example_model, example_table]) (by norm_num [example_model, example_table])
    (Or.inl rfl) (by decide) rfl).2

/-- Claim C18 fails as stated, in two ways.  In a model without rows
(`MaxMotifLength = 0`, as the constructor or the load of a document with an
empty `Model` leaves it) the insertion with `repeatUnitLength = 0` and both
repeat counts `5` has `repeat_unit = 0`, and `calc_prop` reads the cell
`(2 ^ 32 - 1, 2 ^ 32 - 1)`, outside the table.  In a model with
`MaxMotifLength = 2 ^ 31` the insertion with `repeatUnitLength = 2 ^ 31` and both
repeat counts `2` has both tract lengths `0`, because `2 ^ 31 * 2` wraps to `0`,
and the column read is `2 ^ 32 - 1`.  In both cases every premise of the claim
holds and the call does not return `(1, refErrorFactor)`. -/
theorem C18_counterexample :
    (((Indel_model.new zero_table).model 0 0).1 ≤ 1 ∧
      ((Indel_model.new zero_table).model 0 0).2 ≤ 1 ∧
      (report INDEL.index_t.INSERT 0 5 5).repeat_unit_length
        ≤ (Indel_model.new zero_table).MaxMotifLength ∧
      (report INDEL.index_t.INSERT 0 5 5).ref_repeat_count
        = (report INDEL.index_t.INSERT 0 5 5).indel_repeat_count ∧
      (4294967295, 4294967295)
        ∈ (Indel_model.new zero_table).calc_prop_reads (report INDEL.index_t.INSERT 0 5 5) ∧
      (Indel_model.new zero_table).calc_prop_checked example_options
        (report INDEL.index_t.INSERT 0 5 5) true = none) ∧
    (((Indel_model.mk 2147483648 10 zero_table).model 0 0).1 ≤ 1 ∧
      ((Indel_model.mk 2147483648 10 zero_table).model 0 0).2 ≤ 1 ∧
      (report INDEL.index_t.INSERT 2147483648 2 2).repeat_unit_length
        ≤ (Indel_model.mk 2147483648 10 zero_table).MaxMotifLength ∧
      (report INDEL.index_t.INSERT 2147483648 2 2).ref_repeat_count
        = (report INDEL.index_t.INSERT 2147483648 2 2).indel_repeat_count ∧
      (2147483647, 4294967295)
        ∈ (Indel_model.mk 2147483648 10 zero_table).calc_prop_reads
            (report INDEL.index_t.INSERT 2147483648 2 2) ∧
      (Indel_model.mk 2147483648 10 zero_table).calc_prop_checked example_options
        (report INDEL.index_t.INSERT 2147483648 2 2) true = none) := by
  refine ⟨⟨by norm_num [Indel_model.new, zero_table], by norm_num [Indel_model.new, zero_table],
      by decide, rfl, by decide, ?_⟩,
    ⟨by norm_num [zero_table], by norm_num [zero_table], by decide, rfl, by decide, ?_⟩⟩
  · have h : (Indel_model.new zero_table).calc_prop_index_wraps
        (report INDEL.index_t.INSERT 0 5 5) = true := by decide
    simp [Indel_model.calc_prop_checked, h]
  · have h : (Indel_model.mk 2147483648 10 zero_table).calc_prop_index_wraps
        (report INDEL.index_t.INSERT 2147483648 2 2) = true := by decide
    simp [Indel_model.calc_prop_checked, h]

end Indelmodel

namespace Indelmodel

/-! ## The range of the tract lengths looked up -/

/-- In the calibrated-row branch the cells read by `calc_prop` are `model[0][0]`
and the cells of row `repeat_unit - 1` at the columns `ref_query_len - 1` and
`indel_query_len - 1`. -/
theorem calc_prop_reads_calibrated (M : Indel_model) (r : starling_indel_report_info)
    (hit : r.it = INDEL.index_t.INSERT ∨ r.it = INDEL.index_t.DELETE)
    (hrow : r.repeat_unit_length ≤ M.MaxMotifLength) :
    M.calc_prop_reads r =
      [(0, 0),
       (upred (std_min (std_max r.repeat_unit_length 1) M.MaxMotifLength),
         upred (M.ref_query_len r)),
       (0, 0),
       (upred (std_min (std_max r.repeat_unit_length 1) M.MaxMotifLength),
         upred (M.indel_query_len r))] := by
  unfold Indel_model.calc_prop_reads Indel_model.ref_query_len Indel_model.indel_query_len
  rcases hit with hit | hit <;> simp [hit, hrow]

/-- The tract length looked up for a repeat count `c` is between `1` and
`MaxTractLength` when the minimum tract length fits the table. -/
theorem query_len_in_range (M : Indel_model) (r : starling_indel_report_info) (c : Nat)
    (hM : 1 ≤ M.MaxMotifLength)
    (hT : 1 ≤ M.MaxTractLength) (hT32 : M.MaxTractLength < 4294967296)
    (hrow : r.repeat_unit_length ≤ M.MaxMotifLength)
    (hfloor : r.repeat_unit_length ≤ 1 ∨ 2 * r.repeat_unit_length ≤ M.MaxTractLength) :
    1 ≤ std_max
        (if std_min (std_max r.repeat_unit_length 1) M.MaxMotifLength = 1 then 1
          else M.get_min_tract_length r)
        (std_min (umul (std_min (std_max r.repeat_unit_length 1) M.MaxMotifLength)
          (std_max c 1)) M.MaxTractLength) ∧
    std_max
        (if std_min (std_max r.repeat_unit_length 1) M.MaxMotifLength = 1 then 1
          else M.get_min_tract_length r)
        (std_min (umul (std_min (std_max r.repeat_unit_length 1) M.MaxMotifLength)
          (std_max c 1)) M.MaxTractLength) ≤ M.MaxTractLength := by
  rw [std_max_eq_max, std_min_eq_min _ M.MaxTractLength, std_repeat_unit_eq]
  have hru : spec_repeatUnit M r = max r.repeat_unit_length 1 := by
    unfold spec_repeatUnit
    exact min_eq_left (max_le hrow hM)
  have hmt : 1 ≤ (if spec_repeatUnit M r = 1 then 1 else M.get_min_tract_length r) ∧
      (if spec_repeatUnit M r = 1 then 1 else M.get_min_tract_length r) ≤ M.MaxTractLength := by
    split_ifs with h1
    · exact ⟨le_refl 1, hT⟩
    · have h2 : 2 ≤ r.repeat_unit_length := by
        rw [hru] at h1
        rcases le_total r.repeat_unit_length 1 with h5 | h5
        · rw [max_eq_right h5] at h1; exact absurd rfl h1
        · rw [max_eq_left h5] at h1; omega
      have h3 : 2 * r.repeat_unit_length ≤ M.MaxTractLength := by
        rcases hfloor with h | h
        · omega
        · exact h
      unfold Indel_model.get_min_tract_length
      rw [umul_of_lt (by omega)]
      omega
  exact ⟨le_trans hmt.1 (le_max_left _ _), max_le hmt.2 (min_le_right _ _)⟩

/-- Claim C15, amended.  For a model with `maxMotifLength >= 1` and
`1 <= maxTractLength < 2 ^ 32` and a report with
`repeatUnitLength <= maxMotifLength` whose minimum tract length fits the table
(`repeatUnitLength <= 1`, where the minimum is forced to `1`, or
`2 * repeatUnitLength <= maxTractLength`), the two tract lengths looked up,
`ref_query_len` and `indel_query_len`, lie in `1 .. maxTractLength`, the 0-based
indices `ref_query_len - 1` and `indel_query_len - 1` are below `maxTractLength`,
and so is the column of every cell that `calc_prop` reads, whatever the type of
the report. -/
theorem C15_query_lengths_in_range (M : Indel_model) (r : starling_indel_report_info)
    (hM : 1 ≤ M.MaxMotifLength)
    (hT : 1 ≤ M.MaxTractLength) (hT32 : M.MaxTractLength < 4294967296)
    (hrow : r.repeat_unit_length ≤ M.MaxMotifLength)
    (hfloor : r.repeat_unit_length ≤ 1 ∨ 2 * r.repeat_unit_length ≤ M.MaxTractLength) :
    (1 ≤ M.ref_query_len r ∧ M.ref_query_len r ≤ M.MaxTractLength) ∧
    (1 ≤ M.indel_query_len r ∧ M.indel_query_len r ≤ M.MaxTractLength) ∧
    upred (M.ref_query_len r) < M.MaxTractLength ∧
    upred (M.indel_query_len r) < M.MaxTractLength ∧
    (∀ c ∈ M.calc_prop_reads r, c.2 < M.MaxTractLength) := by
  have h1 : 1 ≤ M.ref_query_len r ∧ M.ref_query_len r ≤ M.MaxTractLength :=
    query_len_in_range M r r.ref_repeat_count hM hT hT32 hrow hfloor
  have h2 : 1 ≤ M.indel_query_len r ∧ M.indel_query_len r ≤ M.MaxTractLength :=
    query_len_in_range M r r.indel_repeat_count hM hT hT32 hrow hfloor
  have h3 : upred (M.ref_query_len r) < M.MaxTractLength := by
    rw [upred_of_pos h1.1 (by omega)]; omega
  have h4 : upred (M.indel_query_len r) < M.MaxTractLength := by
    rw [upred_of_pos h2.1 (by omega)]; omega
  refine ⟨h1, h2, h3, h4, ?_⟩
  intro c hc
  by_cases hit : r.it = INDEL.index_t.INSERT ∨ r.it = INDEL.index_t.DELETE
  · rw [calc_prop_reads_calibrated M r hit hrow] at hc
    simp only [List.mem_cons, List.mem_singleton, List.not_mem_nil, or_false] at hc
    rcases hc with hc | hc | hc | hc
    · rw [hc]; exact hT
    · rw [hc]; exact h3
    · rw [hc]; exact hT
    · rw [hc]; exact h4
  · have hn1 : ¬ r.it = INDEL.index_t.INSERT := fun h => hit (Or.inl h)
    have hn2 : ¬ r.it = INDEL.index_t.DELETE := fun h => hit (Or.inr h)
    unfold Indel_model.calc_prop_reads at hc
    simp only [hn1, hn2, decide_False, Bool.or_self, Bool.not_false, if_true, List.mem_cons,
      List.mem_singleton, List.not_mem_nil, or_false, or_self] at hc
    rw [hc]
    exact hT

/-- C15_query_lengths_in_range at the model of the end-to-end example (three
rows, ten columns): for a deletion with `repeatUnitLength = 3` and repeat counts
`1` and `7` the tract lengths looked up are `6` and `10`. -/
theorem C15_query_lengths_in_range_witness :
    example_model.ref_query_len (report INDEL.index_t.DELETE 3 1 7) = 6 ∧
    example_model.indel_query_len (report INDEL.index_t.DELETE 3 1 7) = 10 ∧
    upred (example_model.ref_query_len (report INDEL.index_t.DELETE 3 1 7))
      < example_model.MaxTractLength ∧
    upred (example_model.indel_query_len (report INDEL.index_t.DELETE 3 1 7))
      < example_model.MaxTractLength := by
  have h := C15_query_lengths_in_range example_model (report INDEL.index_t.DELETE 3 1 7)
    (by decide) (by decide) (by decide) (by decide) (Or.inr (by decide))
  exact ⟨by decide, by decide, h.2.2.1, h.2.2.2.1⟩

/-- Claim C15 fails as stated: in a model with three rows and four columns, the
insertion with `repeatUnitLength = 3` and both repeat counts `1` has
`minTract = 6`, so the tract length looked up is `max (6, min (3, 4)) = 6`,
above `maxTractLength = 4`; the cell read is `(2, 5)`.  The formula of step 8
gives the same `6`. -/
theorem C15_counterexample :
    1 ≤ narrow_model.MaxMotifLength ∧ 1 ≤ narrow_model.MaxTractLength ∧
    (report INDEL.index_t.INSERT 3 1 1).repeat_unit_length ≤ narrow_model.MaxMotifLength ∧
    narrow_model.ref_query_len (report INDEL.index_t.INSERT 3 1 1) = 6 ∧
    spec_refQuery narrow_model (report INDEL.index_t.INSERT 3 1 1) = 6 ∧
    ¬ narrow_model.ref_query_len (report INDEL.index_t.INSERT 3 1 1)
        ≤ narrow_model.MaxTractLength ∧
    (2, 5) ∈ narrow_model.calc_prop_reads (report INDEL.index_t.INSERT 3 1 1) ∧
    ¬ upred (narrow_model.ref_query_len (report INDEL.index_t.INSERT 3 1 1))
        < narrow_model.MaxTractLength := by
  refine ⟨by decide, by decide, by decide, by decide, by decide, by decide, by decide,
    by decide⟩

end Indelmodel

namespace Indelmodel

/-! ## Bounds on the estimate -/

/-- The result of `calc_prop` for an insertion with a calibrated row. -/
theorem calc_prop_calibrated_insert (M : Indel_model) (o : starling_base_options)
    (r : starling_indel_report_info) (flag : Bool)
    (hit : r.it = INDEL.index_t.INSERT) (hrow : r.repeat_unit_length ≤ M.MaxMotifLength) :
    M.calc_prop o r flag = Except.ok (some
      (std_max (M.model 0 0).1
          (std_pow (M.model (upred (std_min (std_max r.repeat_unit_length 1) M.MaxMotifLength))
            (upred (M.ref_query_len r))).1 (indel_size r flag)),
       o.indel_ref_error_factor
         * std_max (M.model 0 0).2
             (std_pow (M.model (upred (std_min (std_max r.repeat_unit_length 1) M.MaxMotifLength))
               (upred (M.indel_query_len r))).2 (indel_size r flag)))) := by
  unfold Indel_model.calc_prop Indel_model.ref_query_len Indel_model.indel_query_len
  simp [hit, hrow]

/-- The result of `calc_prop` for a deletion with a calibrated row. -/
theorem calc_prop_calibrated_delete (M : Indel_model) (o : starling_base_options)
    (r : starling_indel_report_info) (flag : Bool)
    (hit : r.it = INDEL.index_t.DELETE) (hrow : r.repeat_unit_length ≤ M.MaxMotifLength) :
    M.calc_prop o r flag = Except.ok (some
      (std_max (M.model 0 0).2
          (std_pow (M.model (upred (std_min (std_max r.repeat_unit_length 1) M.MaxMotifLength))
            (upred (M.ref_query_len r))).2 (indel_size r flag)),
       o.indel_ref_error_factor
         * std_max (M.model 0 0).1
             (std_pow (M.model (upred (std_min (std_max r.repeat_unit_length 1) M.MaxMotifLength))
               (upred (M.indel_query_len r))).1 (indel_size r flag)))) := by
  unfold Indel_model.calc_prop Indel_model.ref_query_len Indel_model.indel_query_len
  simp [hit, hrow]

/-- The maximum of a baseline in the unit interval and a natural power of a
value in the unit interval is in the unit interval. -/
theorem std_max_pow_unit (a x : ℚ) (n : Nat) (ha0 : 0 ≤ a) (ha1 : a ≤ 1) (hx0 : 0 ≤ x)
    (hx1 : x ≤ 1) :
    0 ≤ std_max a (std_pow x (n : Int)) ∧ std_max a (std_pow x (n : Int)) ≤ 1 := by
  rw [std_max_eq_max, std_pow_natCast]
  exact ⟨le_trans ha0 (le_max_left _ _), max_le ha1 (pow_le_one₀ hx0 hx1)⟩

end Indelmodel

namespace Indelmodel

/-- Claim C17, amended.  If every table entry that `calc_prop` reads has both
components in `[0, 1]`, `refErrorFactor >= 0` and, with the flag set,
`|refRepeatCount - indelRepeatCount| < 2 ^ 31` (so that the exponent is not
negative after the narrowing to `int`), then `calc_prop` returns a pair whose
`indelErrorProb` is in `[0, 1]` and whose `refErrorProb` is in
`[0, refErrorFactor]` in the calibrated-row branch and in `[0, 1]` in the other
two branches. -/
theorem C17_estimate_bounds (M : Indel_model) (o : starling_base_options)
    (r : starling_indel_report_info) (flag : Bool)
    (hread : ∀ c ∈ M.calc_prop_reads r, unit_pair (M.model c.1 c.2))
    (hf : 0 ≤ o.indel_ref_error_factor)
    (hexp : flag = true →
      Int.natAbs ((r.ref_repeat_count : Int) - (r.indel_repeat_count : Int)) < 2147483648) :
    ∃ p : ℚ × ℚ, M.calc_prop o r flag = Except.ok (some p) ∧
      (0 ≤ p.1 ∧ p.1 ≤ 1) ∧
      (((r.it = INDEL.index_t.INSERT ∨ r.it = INDEL.index_t.DELETE) ∧
          r.repeat_unit_length ≤ M.MaxMotifLength) →
        0 ≤ p.2 ∧ p.2 ≤ o.indel_ref_error_factor) ∧
      (¬ ((r.it = INDEL.index_t.INSERT ∨ r.it = INDEL.index_t.DELETE) ∧
          r.repeat_unit_length ≤ M.MaxMotifLength) →
        0 ≤ p.2 ∧ p.2 ≤ 1) := by
  have hsize := indel_size_eq_spec r flag hexp
  by_cases hcal : (r.it = INDEL.index_t.INSERT ∨ r.it = INDEL.index_t.DELETE) ∧
      r.repeat_unit_length ≤ M.MaxMotifLength
  · obtain ⟨hit, hrow⟩ := hcal
    rw [calc_prop_reads_calibrated M r hit hrow] at hread
    have e00 := hread (0, 0) (by simp)
    have e1 := hread _ (List.mem_cons_of_mem _ (List.mem_cons_self _ _))
    have e2 := hread _ (List.mem_cons_of_mem _ (List.mem_cons_of_mem _
      (List.mem_cons_of_mem _ (List.mem_cons_self _ _))))
    simp only [unit_pair] at e00 e1 e2
    rcases hit with hit | hit
    · rw [calc_prop_calibrated_insert M o r flag hit hrow, hsize]
      have b1 := std_max_pow_unit _ _ (spec_exponent r flag) e00.1 e00.2.1 e1.1 e1.2.1
      have b2 := std_max_pow_unit _ _ (spec_exponent r flag) e00.2.2.1 e00.2.2.2
        e2.2.2.1 e2.2.2.2
      refine ⟨_, rfl, b1, ?_, ?_⟩
      · intro _
        exact ⟨mul_nonneg hf b2.1, mul_le_of_le_one_right hf b2.2⟩
      · intro hn
        exact absurd ⟨Or.inl hit, hrow⟩ hn
    · rw [calc_prop_calibrated_delete M o r flag hit hrow, hsize]
      have b1 := std_max_pow_unit _ _ (spec_exponent r flag) e00.2.2.1 e00.2.2.2
        e1.2.2.1 e1.2.2.2
      have b2 := std_max_pow_unit _ _ (spec_exponent r flag) e00.1 e00.2.1 e2.1 e2.2.1
      refine ⟨_, rfl, b1, ?_, ?_⟩
      · intro _
        exact ⟨mul_nonneg hf b2.1, mul_le_of_le_one_right hf b2.2⟩
      · intro hn
        exact absurd ⟨Or.inr hit, hrow⟩ hn
  · have e00 : unit_pair (M.model 0 0) := by
      apply hread (0, 0)
      unfold Indel_model.calc_prop_reads
      simp only
      split_ifs <;> simp
    simp only [unit_pair] at e00
    obtain ⟨a0, a1, d0, d1⟩ := e00
    by_cases hs : r.it = INDEL.index_t.INSERT ∨ r.it = INDEL.index_t.DELETE
    · have hrow : ¬ r.repeat_unit_length ≤ M.MaxMotifLength := fun h => hcal ⟨hs, h⟩
      have hne : ¬ INDEL.index_t.DELETE = INDEL.index_t.INSERT := by decide
      rcases hs with hit | hit
      · refine ⟨((M.model 0 0).1, (M.model 0 0).2), ?_, ⟨a0, a1⟩, ?_, ?_⟩
        · simp [Indel_model.calc_prop, hit, hrow]
        · intro h; exact absurd h hcal
        · intro _; exact ⟨d0, d1⟩
      · refine ⟨((M.model 0 0).2, (M.model 0 0).1), ?_, ⟨d0, d1⟩, ?_, ?_⟩
        · simp [Indel_model.calc_prop, hit, hrow]
        · intro h; exact absurd h hcal
        · intro _; exact ⟨a0, a1⟩
    · have hn1 : ¬ r.it = INDEL.index_t.INSERT := fun h => hs (Or.inl h)
      have hn2 : ¬ r.it = INDEL.index_t.DELETE := fun h => hs (Or.inr h)
      have hm : 0 ≤ max (M.model 0 0).1 (M.model 0 0).2 ∧
          max (M.model 0 0).1 (M.model 0 0).2 ≤ 1 :=
        ⟨le_trans a0 (le_max_left _ _), max_le a1 d1⟩
      refine ⟨(max (M.model 0 0).1 (M.model 0 0).2, max (M.model 0 0).1 (M.model 0 0).2),
        ?_, hm, ?_, ?_⟩
      · simp [Indel_model.calc_prop, hn1, hn2, std_max_eq_max]
      · intro h; exact absurd h hcal
      · intro _; exact hm

end Indelmodel

namespace Indelmodel

theorem example_table_unit (u t : Nat) : unit_pair (example_table u t) := by
  unfold unit_pair example_table
  split_ifs <;> norm_num

theorem half_table_unit (u t : Nat) : unit_pair (half_table u t) := by
  unfold unit_pair half_table
  norm_num

/-- C17_estimate_bounds at the end-to-end example: the estimate of the
insertion with both repeat counts `4` has `indelErrorProb` in `[0, 1]` and
`refErrorProb` in `[0, 1.5]`. -/
theorem C17_estimate_bounds_witness :
    ∃ p : ℚ × ℚ,
      example_model.calc_prop example_options (report INDEL.index_t.INSERT 1 4 4) false
        = Except.ok (some p) ∧
      (0 ≤ p.1 ∧ p.1 ≤ 1) ∧ (0 ≤ p.2 ∧ p.2 ≤ 3 / 2) := by
  obtain ⟨p, hp, h1, h2, _⟩ := C17_estimate_bounds example_model example_options
    (report INDEL.index_t.INSERT 1 4 4) false (fun c _ => example_table_unit c.1 c.2)
    (by norm_num [example_options]) (by simp)
  exact ⟨p, hp, h1, h2 ⟨Or.inl rfl, by decide⟩⟩

/-- Claim C17 fails as stated, in two ways.  With every table entry `(0.5, 0.5)`,
`refErrorFactor = 1.5`, the flag set and the insertion with
`refRepeatCount = 2 ^ 32 - 1`, `indelRepeatCount = 0`, the exponent narrows to
`-1` and `indelErrorProb = max (0.5, 0.5 ^ (-1)) = 2`, above `1`.  With the table
of the end-to-end example and `refErrorFactor = -1`, `refErrorProb = -0.02`,
below `0`. -/
theorem C17_counterexample :
    ((∀ u t : Nat, unit_pair (half_model.model u t)) ∧
      half_model.calc_prop example_options (report INDEL.index_t.INSERT 1 4294967295 0) true
        = Except.ok (some (2, 3)) ∧
      ¬ ((2 : ℚ) ≤ 1)) ∧
    ((∀ u t : Nat, unit_pair (example_model.model u t)) ∧
      example_model.calc_prop negative_options (report INDEL.index_t.INSERT 1 4 4) false
        = Except.ok (some (1 / 100, -1 / 50)) ∧
      ¬ ((0 : ℚ) ≤ -1 / 50)) := by
  refine ⟨⟨half_table_unit, ?_, by norm_num⟩, ⟨example_table_unit, ?_, by norm_num⟩⟩
  · norm_num [Indel_model.calc_prop, Indel_model.get_min_tract_length, indel_size, std_pow,
      long_to_int, std_max, std_min, umul, upred, UINT_RANGE, half_model, half_table,
      example_options, report]
  · norm_num [Indel_model.calc_prop, Indel_model.get_min_tract_length, indel_size, std_pow,
      std_max, std_min, umul, upred, UINT_RANGE, example_model, example_table,
      negative_options, report]

/-! ## Length dependence -/

/-- Claim C19, amended.  For a model whose entries are in `[0, 1]`, options with
`refErrorFactor > 0` and a report of type INSERT or DELETE with
`repeatUnitLength <= maxMotifLength` and
`1 <= |refRepeatCount - indelRepeatCount| < 2 ^ 31`, `calc_prop` returns a pair
with the flag set and a pair without it, each of `indelErrorProb` and
`refErrorProb` of the first is at most the corresponding value of the second,
and the two pairs are equal when the difference is exactly `1`. -/
theorem C19_length_dependence_lowers (M : Indel_model) (o : starling_base_options)
    (r : starling_indel_report_info)
    (hentries : ∀ u t : Nat, unit_pair (M.model u t))
    (hf : 0 < o.indel_ref_error_factor)
    (hit : r.it = INDEL.index_t.INSERT ∨ r.it = INDEL.index_t.DELETE)
    (hrow : r.repeat_unit_length ≤ M.MaxMotifLength)
    (hdiff : 1 ≤ Int.natAbs ((r.ref_repeat_count : Int) - (r.indel_repeat_count : Int)))
    (hexp : Int.natAbs ((r.ref_repeat_count : Int) - (r.indel_repeat_count : Int))
      < 2147483648) :
    ∃ p q : ℚ × ℚ,
      M.calc_prop o r true = Except.ok (some p) ∧
      M.calc_prop o r false = Except.ok (some q) ∧
      p.1 ≤ q.1 ∧ p.2 ≤ q.2 ∧
      (Int.natAbs ((r.ref_repeat_count : Int) - (r.indel_repeat_count : Int)) = 1 → p = q) := by
  have hT : indel_size r true = (spec_exponent r true : Int) :=
    indel_size_eq_spec r true (fun _ => hexp)
  have hF : indel_size r false = ((1 : Nat) : Int) := by
    rw [indel_size_false]; rfl
  have hn : spec_exponent r true
      = Int.natAbs ((r.ref_repeat_count : Int) - (r.indel_repeat_count : Int)) := by
    simp [spec_exponent]
  have hn0 : spec_exponent r true ≠ 0 := by rw [hn]; omega
  have key : ∀ a x : ℚ, 0 ≤ x → x ≤ 1 →
      std_max a (std_pow x (spec_exponent r true : Int))
        ≤ std_max a (std_pow x ((1 : Nat) : Int)) := by
    intro a x hx0 hx1
    rw [std_max_eq_max, std_max_eq_max, std_pow_natCast, std_pow_natCast, pow_one]
    exact max_le_max (le_refl a) (pow_le_of_le_one hx0 hx1 hn0)
  rcases hit with hit | hit
  · rw [calc_prop_calibrated_insert M o r true hit hrow,
      calc_prop_calibrated_insert M o r false hit hrow, hT, hF]
    refine ⟨_, _, rfl, rfl, ?_, ?_, ?_⟩
    · exact key _ _ (hentries _ _).1 (hentries _ _).2.1
    · exact mul_le_mul_of_nonneg_left (key _ _ (hentries _ _).2.2.1 (hentries _ _).2.2.2)
        (le_of_lt hf)
    · intro h1
      rw [hn, h1]
  · rw [calc_prop_calibrated_delete M o r true hit hrow,
      calc_prop_calibrated_delete M o r false hit hrow, hT, hF]
    refine ⟨_, _, rfl, rfl, ?_, ?_, ?_⟩
    · exact key _ _ (hentries _ _).2.2.1 (hentries _ _).2.2.2
    · exact mul_le_mul_of_nonneg_left (key _ _ (hentries _ _).1 (hentries _ _).2.1)
        (le_of_lt hf)
    · intro h1
      rw [hn, h1]

end Indelmodel

namespace Indelmodel

/-- C19_length_dependence_lowers at the model of the end-to-end example: for the
insertion with `repeatUnitLength = 1`, `refRepeatCount = 4` and
`indelRepeatCount = 2` the estimate with length dependence is componentwise at
most the estimate without. -/
theorem C19_length_dependence_lowers_witness :
    ∃ p q : ℚ × ℚ,
      example_model.calc_prop example_options (report INDEL.index_t.INSERT 1 4 2) true
        = Except.ok (some p) ∧
      example_model.calc_prop example_options (report INDEL.index_t.INSERT 1 4 2) false
        = Except.ok (some q) ∧
      p.1 ≤ q.1 ∧ p.2 ≤ q.2 := by
  obtain ⟨p, q, hp, hq, h1, h2, _⟩ := C19_length_dependence_lowers example_model
    example_options (report INDEL.index_t.INSERT 1 4 2) example_table_unit
    (by norm_num [example_options]) (Or.inl rfl) (by decide) (by decide) (by decide)
  exact ⟨p, q, hp, hq, h1, h2⟩

/-- Claim C19 fails as stated: with every table entry `(0.5, 0.5)`,
`refErrorFactor = 1.5` and the insertion with `refRepeatCount = 2 ^ 32 - 1`,
`indelRepeatCount = 0`, the exponent narrows to `-1`; the estimate with length
dependence is `(2, 3)`, the estimate without is `(0.5, 0.75)`. -/
theorem C19_counterexample :
    (∀ u t : Nat, unit_pair (half_model.model u t)) ∧
    0 < example_options.indel_ref_error_factor ∧
    (report INDEL.index_t.INSERT 1 4294967295 0).repeat_unit_length
      ≤ half_model.MaxMotifLength ∧
    1 ≤ Int.natAbs (((report INDEL.index_t.INSERT 1 4294967295 0).ref_repeat_count : Int)
      - ((report INDEL.index_t.INSERT 1 4294967295 0).indel_repeat_count : Int)) ∧
    half_model.calc_prop example_options (report INDEL.index_t.INSERT 1 4294967295 0) true
      = Except.ok (some (2, 3)) ∧
    half_model.calc_prop example_options (report INDEL.index_t.INSERT 1 4294967295 0) false
      = Except.ok (some (1 / 2, 3 / 4)) ∧
    ¬ ((2 : ℚ) ≤ 1 / 2) := by
  refine ⟨half_table_unit, by norm_num [example_options], by decide, by decide, ?_, ?_,
    by norm_num⟩
  · norm_num [Indel_model.calc_prop, Indel_model.get_min_tract_length, indel_size, std_pow,
      long_to_int, std_max, std_min, umul, upred, UINT_RANGE, half_model, half_table,
      example_options, report]
  · norm_num [Indel_model.calc_prop, Indel_model.get_min_tract_length, indel_size, std_pow,
      std_max, std_min, umul, upred, UINT_RANGE, half_model, half_table,
      example_options, report]

end Indelmodel
